import Mathlib

/-!
# Verification of the school scoring engine (`scoring.py`)

Shallow embedding of the `SchoolScorer` class: the eight per-category
scorers, the composite aggregator, the filter predicate and the ranking
pipeline.  Numbers are modelled as rationals, Python `None` as `Option`,
Python truthiness of optional numbers as `pyTruthy`, and `round(x, 1)`
(banker's rounding) as `pyRound1`.  Operations that can raise in Python
(`statistics.mean` on an empty list, arithmetic on `None`) are
`Option`-valued, so a scorer result of `none` models an uncaught
exception while `some r` models a normal return of `r`.
-/

namespace Middelbare

/-- Round-half-to-even on rationals, the rounding mode of Python's
`round` builtin. -/
def roundHalfEven (q : ℚ) : ℤ :=
  let n := ⌊q⌋
  let f := q - n
  if f < 1/2 then n
  else if 1/2 < f then n + 1
  else if n % 2 = 0 then n else n + 1

/-- Model of Python `round(x, 1)`. -/
def pyRound1 (q : ℚ) : ℚ := (roundHalfEven (q * 10) : ℚ) / 10

/-- Python truthiness of an optional number: `None` and `0` are falsy. -/
def pyTruthy (q : Option ℚ) : Bool :=
  match q with
  | none => false
  | some x => x != 0

/-- Model of `statistics.mean`: raises (here `none`) on an empty list. -/
def mean (l : List ℚ) : Option ℚ :=
  if l = [] then none else some (l.sum / l.length)

/-- Model of the `f"{x:.1f}"` float format used in details strings. -/
def fmt1 (q : ℚ) : String := toString (pyRound1 q)

/-! ## Data model (§3 of the spec): the consumed fields of a SchoolRecord -/

/-- One level (`vmbo`/`havo`/`vwo`) inside `academic_performance.exam_scores`. -/
structure ExamLevel where
  pass_rate_2024_2025 : Option ℚ
  average_pass_rate_5yr : Option ℚ
  candidates_2024_2025 : Option ℕ
deriving DecidableEq

/-- The `exam_scores` object; each level key is optional. -/
structure ExamScores where
  vmbo : Option ExamLevel
  havo : Option ExamLevel
  vwo : Option ExamLevel
deriving DecidableEq

/-- Key lookup on `exam_scores` for the three level names. -/
def ExamScores.get (es : ExamScores) (level : String) : Option ExamLevel :=
  if level = "vmbo" then es.vmbo
  else if level = "havo" then es.havo
  else if level = "vwo" then es.vwo
  else none

theorem ExamScores.get_vmbo (es : ExamScores) : es.get "vmbo" = es.vmbo := rfl

theorem ExamScores.get_havo (es : ExamScores) : es.get "havo" = es.havo := rfl

theorem ExamScores.get_vwo (es : ExamScores) : es.get "vwo" = es.vwo := rfl

/-- A review object in `reviews_reputation.parent_reviews` / `.student_reviews`. -/
structure Review where
  overall_rating : Option ℚ
  would_recommend : Option ℚ
  voice_matters : Option ℚ
deriving DecidableEq

/-- The `facilities.technology` object (`some ⟨none⟩` models a non-empty
dict without a usable `description`, which is truthy in Python). -/
structure TechInfo where
  description : Option String
deriving DecidableEq

/-- The `facilities` object; a missing `classrooms_labs_quality` is the
`''` default of `facilities.get('classrooms_labs_quality', '')`, and
`library` is the truthiness of `facilities.get('library', {})`. -/
structure Facilities where
  technology : Option TechInfo
  sports_facilities : List String
  classrooms_labs_quality : String
  library : Bool
deriving DecidableEq

/-- The `basic_info` object; `name` is required (§6), the rest optional.
`enrollment_total` flattens `basic_info.enrollment.total`, and
`type` defaults to `[]` as in `get('type', [])`. -/
structure BasicInfo where
  name : String
  city : Option String
  type : List String
  religious_affiliation : Option String
  enrollment_total : Option ℕ
deriving DecidableEq

/-- A school record, flattened to the fields the scorer consumes.  The
chains of `.get(..., {})` collapse: a missing intermediate object makes
every leaf below it `none` / `[]` / default.  `exam_scores = none`
models a missing or empty (falsy) `exam_scores` dict. -/
structure School where
  id : String
  basic_info : BasicInfo
  exam_scores : Option ExamScores
  special_programs : List String
  extracurricular_activities : List String
  bike_duration_minutes : Option ℚ
  transit_duration_minutes : Option ℚ
  parent_reviews : List Review
  student_reviews : List Review
  facilities : Facilities
  after_school_programs : List String
deriving DecidableEq

/-- A category score: `{'score': number|null, 'details': str}`. -/
structure CategoryScore where
  score : Option ℚ
  details : String
deriving DecidableEq

/-! ## Academic performance scorer -/

/-- The iteration order `['vmbo', 'havo', 'vwo']`. -/
def levelNames : List String := ["vmbo", "havo", "vwo"]

/-- The `level_weights` dict (only ever indexed at the three names). -/
def levelWeight (level : String) : ℚ :=
  if level = "vmbo" then 7/10
  else if level = "havo" then 1
  else if level = "vwo" then 3/2
  else 0

/-- `level_data`: pass rates collected per level, keeping only truthy
rates (`if rate:` drops both `None` and `0`). -/
def levelData (es : ExamScores) : List (String × ℚ) :=
  levelNames.filterMap fun level =>
    (es.get level).bind fun l =>
      match l.pass_rate_2024_2025 with
      | some rate => if rate ≠ 0 then some (level, rate) else none
      | none => none

/-- `five_year_avgs`: truthy `average_pass_rate_5yr` values in level order. -/
def fiveYearAvgs (es : ExamScores) : List ℚ :=
  levelNames.filterMap fun level =>
    (es.get level).bind fun l =>
      match l.average_pass_rate_5yr with
      | some avg => if avg ≠ 0 then some avg else none
      | none => none

/-- `candidate_counts`: truthy `candidates_2024_2025` values in level order. -/
def candidateCounts (es : ExamScores) : List ℕ :=
  levelNames.filterMap fun level =>
    (es.get level).bind fun l =>
      match l.candidates_2024_2025 with
      | some c => if c ≠ 0 then some c else none
      | none => none

/-- `calculate_academic_score` (lines 44-105 of `scoring.py`). -/
def calculate_academic_score (school : School) : Option CategoryScore :=
  match school.exam_scores with
  | none => some ⟨none, "No exam data available"⟩
  | some exam_scores =>
    let level_data := levelData exam_scores
    let five_year_avgs := fiveYearAvgs exam_scores
    let candidate_counts := candidateCounts exam_scores
    if level_data = [] then some ⟨none, "No pass rate data"⟩
    else
      let current_rate : ℚ :=
        match level_data with
        | [single] => single.2
        | _ =>
          let weighted_sum := (level_data.map fun p => p.2 * levelWeight p.1).sum
          let total_weight := (level_data.map fun p => levelWeight p.1).sum
          weighted_sum / total_weight
      let final_rate? : Option ℚ :=
        if five_year_avgs = [] then some current_rate
        else (mean five_year_avgs).map fun avg_rate =>
          current_rate * (7/10) + avg_rate * (3/10)
      final_rate?.map fun final_rate =>
        let total_candidates : ℕ :=
          if candidate_counts = [] then 0 else candidate_counts.sum
        let reliability_bonus : ℚ := min ((total_candidates : ℚ) / 500 * 5) 5
        let score := min (final_rate + reliability_bonus) 100
        let rate_text := fmt1 final_rate
        ⟨some (pyRound1 score),
         s!"{rate_text}% pass rate, {total_candidates} candidates"⟩

/-! ## Proximity scorer -/

/-- `calculate_proximity_score` (lines 107-134). -/
def calculate_proximity_score (school : School) : Option CategoryScore :=
  let bike_mins := school.bike_duration_minutes
  let transit_mins := school.transit_duration_minutes
  if ¬ pyTruthy bike_mins ∧ ¬ pyTruthy transit_mins then
    some ⟨none, "No commute data"⟩
  else
    let primary? : Option ℚ := if pyTruthy bike_mins then bike_mins else transit_mins
    primary?.map fun primary_mins =>
      let score : ℚ :=
        if primary_mins ≤ 10 then 100 - primary_mins * 1
        else if primary_mins ≤ 30 then 90 - (primary_mins - 10) * 2
        else max (50 - (primary_mins - 30) * 1) 0
      let commute_mode := if pyTruthy bike_mins then "bike" else "transit"
      let mins_text := fmt1 primary_mins
      ⟨some (pyRound1 score), s!"{mins_text} mins by {commute_mode}"⟩

/-! ## Satisfaction scorers -/

/-- `calculate_parent_satisfaction_score` (lines 136-159). -/
def calculate_parent_satisfaction_score (school : School) : Option CategoryScore :=
  match school.parent_reviews with
  | [] => some ⟨none, "No parent reviews"⟩
  | latest :: _ =>
    match latest.overall_rating with
    | none => some ⟨none, "No rating available"⟩
    | some rating =>
      if rating = 0 then some ⟨none, "No rating available"⟩
      else
        let score := rating * 10
        let recommend_text :=
          match latest.would_recommend with
          | some r =>
            if r ≠ 0 then
              let r_text := fmt1 r
              s!", {r_text}/10 recommend"
            else ""
          | none => ""
        let rating_text := fmt1 rating
        some ⟨some (pyRound1 score), s!"{rating_text}/10 rating{recommend_text}"⟩

/-- `calculate_student_satisfaction_score` (lines 161-184). -/
def calculate_student_satisfaction_score (school : School) : Option CategoryScore :=
  match school.student_reviews with
  | [] => some ⟨none, "No student reviews"⟩
  | latest :: _ =>
    match latest.overall_rating with
    | none => some ⟨none, "No rating available"⟩
    | some rating =>
      if rating = 0 then some ⟨none, "No rating available"⟩
      else
        let score := rating * 10
        let voice_text :=
          match latest.voice_matters with
          | some v =>
            if v ≠ 0 then
              let v_text := fmt1 v
              s!", {v_text}/10 voice matters"
            else ""
          | none => ""
        let rating_text := fmt1 rating
        some ⟨some (pyRound1 score), s!"{rating_text}/10 rating{voice_text}"⟩

/-! ## Facilities scorer -/

/-- `calculate_facilities_score` (lines 186-224). -/
def calculate_facilities_score (school : School) : Option CategoryScore :=
  let facilities := school.facilities
  let tech_desc_truthy : Bool :=
    match facilities.technology with
    | some t =>
      match t.description with
      | some d => d ≠ ""
      | none => false
    | none => false
  let sports := facilities.sports_facilities
  let classrooms := facilities.classrooms_labs_quality
  let score : ℚ := 50
    + (if tech_desc_truthy then 15 else 0)
    + (if sports ≠ [] ∧ sports.length > 0 then 15 else 0)
    + (if classrooms ≠ "" ∧ classrooms.length > 50 then 10 else 0)
    + (if facilities.library then 10 else 0)
  let details_parts : List String :=
    (if facilities.technology.isSome then ["technology"] else [])
    ++ (if sports ≠ [] then ["sports"] else [])
    ++ (if classrooms ≠ "" then ["specialized classrooms"] else [])
  let details :=
    if details_parts ≠ [] then String.intercalate ", " details_parts
    else "Basic facilities"
  some ⟨some (pyRound1 (min score 100)), details⟩

/-! ## School size scorer -/

/-- One row of the `preference_scores` table as a partial lookup
(`.get(size_category, 80)` supplies the default elsewhere). -/
def sizeRowSmall (cat : String) : Option ℚ :=
  if cat = "small" then some 100 else if cat = "medium" then some 70
  else if cat = "large" then some 50 else if cat = "very_large" then some 30
  else none

def sizeRowMedium (cat : String) : Option ℚ :=
  if cat = "small" then some 70 else if cat = "medium" then some 100
  else if cat = "large" then some 80 else if cat = "very_large" then some 60
  else none

def sizeRowLarge (cat : String) : Option ℚ :=
  if cat = "small" then some 50 else if cat = "medium" then some 80
  else if cat = "large" then some 100 else if cat = "very_large" then some 90
  else none

def sizeRowAny (cat : String) : Option ℚ :=
  if cat = "small" then some 80 else if cat = "medium" then some 80
  else if cat = "large" then some 80 else if cat = "very_large" then some 80
  else none

/-- `preference_scores.get(preferred_size, preference_scores['any'])`. -/
def sizeRow (preferred_size : String) : String → Option ℚ :=
  if preferred_size = "small" then sizeRowSmall
  else if preferred_size = "medium" then sizeRowMedium
  else if preferred_size = "large" then sizeRowLarge
  else if preferred_size = "any" then sizeRowAny
  else sizeRowAny

/-- The full table lookup with the `.get(size_category, 80)` default. -/
def sizeScore (preferred_size cat : String) : ℚ :=
  (sizeRow preferred_size cat).getD 80

/-- The nested conditional computing `size_category` (lines 236-238). -/
def sizeCategory (enrollment : ℕ) : String :=
  if enrollment > 1500 then "very_large"
  else if enrollment > 1000 then "large"
  else if enrollment ≥ 500 then "medium"
  else "small"

/-- `calculate_school_size_score` (lines 226-253). -/
def calculate_school_size_score (school : School) (preferred_size : String) :
    Option CategoryScore :=
  match school.basic_info.enrollment_total with
  | none => some ⟨none, "No enrollment data"⟩
  | some enrollment =>
    if enrollment = 0 then some ⟨none, "No enrollment data"⟩
    else
      let size_category := sizeCategory enrollment
      let score := sizeScore preferred_size size_category
      let cat_text := size_category.replace "_" " "
      some ⟨some score, s!"{enrollment} students ({cat_text})"⟩

/-! ## Extracurriculars and special programs scorers -/

/-- `calculate_extracurriculars_score` (lines 255-272). -/
def calculate_extracurriculars_score (school : School) : Option CategoryScore :=
  let total_activities :=
    school.extracurricular_activities.length + school.after_school_programs.length
  if total_activities = 0 then some ⟨some 50, "No data on activities"⟩
  else
    let score : ℚ := min (50 + (total_activities : ℚ) * 5) 100
    some ⟨some score, s!"{total_activities} activities listed"⟩

/-- `calculate_special_programs_score` (lines 274-291). -/
def calculate_special_programs_score (school : School) : Option CategoryScore :=
  let programs := school.special_programs
  if programs = [] then some ⟨some 50, "No special programs listed"⟩
  else
    let score : ℚ := min (50 + (programs.length : ℚ) * 10) 100
    let program_list := String.intercalate ", " (programs.take 3)
    let program_list :=
      if programs.length > 3 then
        let extra := programs.length - 3
        program_list ++ s!", +{extra} more"
      else program_list
    some ⟨some score, program_list⟩

/-! ## Composite aggregator -/

/-- The `DEFAULT_WEIGHTS` class attribute (lines 17-26). -/
def DEFAULT_WEIGHTS : List (String × ℚ) :=
  [("academic_performance", 30), ("proximity", 20), ("parent_satisfaction", 15),
   ("student_satisfaction", 10), ("facilities", 10), ("school_size", 5),
   ("extracurriculars", 5), ("special_programs", 5)]

/-- The full per-composite-score record (lines 328-333).  `weights_used`
echoes the input weights. -/
structure CompositeResult where
  composite_score : Option ℚ
  category_scores : List (String × CategoryScore)
  weights_used : List (String × ℚ)
  total_weight : ℚ
deriving DecidableEq

/-- The `scores` dict built at lines 305-314, as an association list in
insertion order; `none` propagates a scorer exception. -/
def category_scores_map (school : School) (preferred_size : String) :
    Option (List (String × CategoryScore)) := do
  let academic ← calculate_academic_score school
  let proximity ← calculate_proximity_score school
  let parent ← calculate_parent_satisfaction_score school
  let student ← calculate_student_satisfaction_score school
  let facilities ← calculate_facilities_score school
  let school_size ← calculate_school_size_score school preferred_size
  let extracurriculars ← calculate_extracurriculars_score school
  let special_programs ← calculate_special_programs_score school
  return [("academic_performance", academic), ("proximity", proximity),
          ("parent_satisfaction", parent), ("student_satisfaction", student),
          ("facilities", facilities), ("school_size", school_size),
          ("extracurriculars", extracurriculars),
          ("special_programs", special_programs)]

/-- One iteration of the accumulation loop at lines 320-324: skip a
category absent from the scores dict or with a `null` score, otherwise
add `score × weight` and `weight`. -/
def compositeStep (scores : List (String × CategoryScore)) (acc : ℚ × ℚ)
    (cw : String × ℚ) : ℚ × ℚ :=
  match scores.lookup cw.1 with
  | some score_data =>
    match score_data.score with
    | some sc => (acc.1 + sc * cw.2, acc.2 + cw.2)
    | none => acc
  | none => acc

/-- `calculate_composite_score` (lines 293-333).  Note the final
truthiness test `round(composite_score, 1) if composite_score else None`:
a composite of exactly `0` is reported as `null`. -/
def calculate_composite_score (school : School) (weights : List (String × ℚ))
    (preferences : Option String) : Option CompositeResult := do
  let preferred_size := preferences.getD "medium"
  let scores ← category_scores_map school preferred_size
  let ws_tw := weights.foldl (compositeStep scores) (0, 0)
  let composite_score : Option ℚ :=
    if ws_tw.2 > 0 then some (ws_tw.1 / ws_tw.2) else none
  return { composite_score :=
             match composite_score with
             | some c => if c = 0 then none else some (pyRound1 c)
             | none => none
           category_scores := scores
           weights_used := weights
           total_weight := ws_tw.2 }

/-! ## Filters -/

/-- A `filters` dict.  A field that is `none` models an absent key;
`some []` / `some ""` model present-but-falsy values (which disable the
`school_type`, `religious_affiliation` and `city` checks, exactly as
`if 'k' in filters and filters['k']` does).  `max_commute_minutes` is
guarded by key presence only. -/
structure Filters where
  school_type : Option (List String)
  religious_affiliation : Option String
  max_commute_minutes : Option ℚ
  city : Option String
deriving DecidableEq

/-- Model of Python's `str.lower()` (per-character lowercasing). -/
def pyLower (s : String) : String := ⟨s.data.map Char.toLower⟩

/-- Whether `pat` occurs at the start of `hay`. -/
def charsStartWith : List Char → List Char → Bool
  | _, [] => true
  | [], _ :: _ => false
  | h :: t, p :: ps => h = p && charsStartWith t ps

/-- Python's substring test `pat in hay` on character lists. -/
def charsContain (hay pat : List Char) : Bool :=
  match hay with
  | [] => pat = []
  | _ :: t => charsStartWith hay pat || charsContain t pat

/-- `_passes_filters` (lines 360-386). -/
def passes_filters (school : School) (filters : Filters) : Bool :=
  (match filters.school_type with
   | some fts =>
     if fts ≠ [] then
       let school_types := school.basic_info.type
       fts.any fun t => school_types.contains t
     else true
   | none => true)
  && (match filters.religious_affiliation with
      | some fa =>
        if fa ≠ "" then
          let affiliation := (school.basic_info.religious_affiliation).getD ""
          charsContain (pyLower affiliation).data (pyLower fa).data
        else true
      | none => true)
  && (match filters.max_commute_minutes with
      | some limit =>
        let bike_mins := school.bike_duration_minutes
        !(pyTruthy bike_mins && bike_mins.getD 0 > limit)
      | none => true)
  && (match filters.city with
      | some c =>
        if c ≠ "" then
          let city := (school.basic_info.city).getD ""
          pyLower city = pyLower c
        else true
      | none => true)

/-! ## Ranking -/

/-- The sort key: `x['score_data']['composite_score']` (every ranked
entry has a non-null composite, so the default is never read). -/
def rankKey (p : School × CompositeResult) : ℚ :=
  p.2.composite_score.getD 0

/-- Insert into a descending-sorted list after every element with a key
`≥` the new one: the insertion step of a stable descending sort. -/
def insertDesc (key : School × CompositeResult → ℚ) (x : School × CompositeResult) :
    List (School × CompositeResult) → List (School × CompositeResult)
  | [] => [x]
  | y :: ys => if key y < key x then x :: y :: ys else y :: insertDesc key x ys

/-- Stable descending insertion sort, modelling
`results.sort(key=..., reverse=True)` (Python's sort is stable). -/
def sortDesc (key : School × CompositeResult → ℚ)
    (l : List (School × CompositeResult)) : List (School × CompositeResult) :=
  l.foldl (fun acc x => insertDesc key x acc) []

/-- `if filters: if not self._passes_filters(...)` — a `None` (or empty,
falsy) filters dict disables filtering. -/
def passes_filters_opt (school : School) (filters : Option Filters) : Bool :=
  match filters with
  | some f => passes_filters school f
  | none => true

/-- Option-sequencing of a scoring function over a list (the loop body
may model an exception, which propagates). -/
def mapOption {α β : Type} (f : α → Option β) : List α → Option (List β)
  | [] => some []
  | x :: xs => (f x).bind fun y => (mapOption f xs).map fun ys => y :: ys

/-- The `results` list of `rank_schools` before sorting (lines 339-353):
filtered schools scored, keeping only non-null composites, in input order. -/
def rank_results (schools : List School) (weights : List (String × ℚ))
    (preferences : Option String) (filters : Option Filters) :
    Option (List (School × CompositeResult)) :=
  (mapOption
    (fun s => (calculate_composite_score s weights preferences).map fun sd => (s, sd))
    (schools.filter fun s => passes_filters_opt s filters)).map
    fun scored => scored.filter fun p => p.2.composite_score.isSome

/-- `rank_schools` (lines 335-358): the results list sorted by composite
score descending with Python's stable sort. -/
def rank_schools (schools : List School) (weights : List (String × ℚ))
    (preferences : Option String) (filters : Option Filters) :
    Option (List (School × CompositeResult)) :=
  (rank_results schools weights preferences filters).map (sortDesc rankKey)

/-! ## Spec-side definitions (from the spec's words, for comparison) -/

/-- The proximity formula as the spec states it: `100−m` for `m≤10`,
`90−2×(m−10)` for `10<m≤30`, `max(50−(m−30), 0)` for `m>30`. -/
def proximityFormula (m : ℚ) : ℚ :=
  if m ≤ 10 then 100 - m
  else if m ≤ 30 then 90 - 2 * (m - 10)
  else max (50 - (m - 30)) 0

/-- §4.1's academic formula read literally: a level's pass rate (and a
5-year average, and a candidate count) is "present" whenever the field
holds a value, including `0`.  Weighted mean over present levels,
`0.7/0.3` blend when any 5-year average exists, reliability bonus,
cap at 100, round to 1 decimal. -/
def academic_spec_literal (school : School) : Option ℚ :=
  match school.exam_scores with
  | none => none
  | some es =>
    let rates := levelNames.filterMap fun level =>
      (es.get level).bind fun l => l.pass_rate_2024_2025.map fun r => (level, r)
    let avgs := levelNames.filterMap fun level =>
      (es.get level).bind fun l => l.average_pass_rate_5yr
    let cands := levelNames.filterMap fun level =>
      (es.get level).bind fun l => l.candidates_2024_2025
    if rates = [] then none
    else
      let current := ((rates.map fun p => p.2 * levelWeight p.1).sum)
        / ((rates.map fun p => levelWeight p.1).sum)
      let final :=
        match mean avgs with
        | some historical => current * (7/10) + historical * (3/10)
        | none => current
      let bonus : ℚ := min ((cands.sum : ℚ) / 500 * 5) 5
      some (pyRound1 (min (final + bonus) 100))

/-- §4.1's academic formula with presence read as Python truthiness
(zero-valued rates, averages and counts treated as absent) — the
amendment of claim C6.  Unlike the code it has no special case for a
single level: the weighted mean formula is applied uniformly. -/
def academic_spec_truthy (school : School) : Option ℚ :=
  match school.exam_scores with
  | none => none
  | some es =>
    let rates := levelData es
    if rates = [] then none
    else
      let current := ((rates.map fun p => p.2 * levelWeight p.1).sum)
        / ((rates.map fun p => levelWeight p.1).sum)
      let final :=
        match mean (fiveYearAvgs es) with
        | some historical => current * (7/10) + historical * (3/10)
        | none => current
      let bonus : ℚ := min (((candidateCounts es).sum : ℚ) / 500 * 5) 5
      some (pyRound1 (min (final + bonus) 100))

/-- The enrollment bucketing as the spec states it: `small` (<500),
`medium` (500–999), `large` (1000–1500), `very_large` (>1500). -/
def specBucket (enrollment : ℕ) : String :=
  if enrollment < 500 then "small"
  else if enrollment ≤ 999 then "medium"
  else if enrollment ≤ 1500 then "large"
  else "very_large"

/-! ## Concrete school records for counterexamples and witnesses -/

/-- A maximally sparse well-formed record: only `id` and
`basic_info.name` present. -/
def schoolSparse : School :=
  { id := "sparse"
    basic_info := { name := "Sparse College", city := none, type := [],
                    religious_affiliation := none, enrollment_total := none }
    exam_scores := none
    special_programs := []
    extracurricular_activities := []
    bike_duration_minutes := none
    transit_duration_minutes := none
    parent_reviews := []
    student_reviews := []
    facilities := { technology := none, sports_facilities := [],
                    classrooms_labs_quality := "", library := false }
    after_school_programs := [] }

/-- Sparse school with a recorded 80-minute bike commute (proximity
score 0). -/
def schoolProx80 : School :=
  { schoolSparse with id := "prox80", bike_duration_minutes := some 80 }

/-- Sparse school with a recorded 90-minute bike commute (proximity
score 0). -/
def schoolProx90 : School :=
  { schoolSparse with id := "prox90", bike_duration_minutes := some 90 }

/-- Sparse school with a recorded 30-minute bike commute. -/
def schoolProx30 : School :=
  { schoolSparse with id := "prox30", bike_duration_minutes := some 30 }

/-- Sparse school with a recorded 0-minute bike commute and a 40-minute
transit commute. -/
def schoolBike0Transit40 : School :=
  { schoolSparse with id := "bike0", bike_duration_minutes := some 0,
                      transit_duration_minutes := some 40 }

/-- Sparse school with enrollment exactly 1000. -/
def schoolEnroll1000 : School :=
  { schoolSparse with
      id := "enroll1000"
      basic_info := { schoolSparse.basic_info with enrollment_total := some 1000 } }

/-- Sparse school with enrollment 1200. -/
def schoolEnroll1200 : School :=
  { schoolSparse with
      id := "enroll1200"
      basic_info := { schoolSparse.basic_info with enrollment_total := some 1200 } }

/-- School whose only exam data is a `vwo` entry with a recorded pass
rate of exactly 0 and 400 candidates. -/
def schoolVwo0 : School :=
  { schoolSparse with
      id := "vwo0"
      exam_scores := some
        { vmbo := none
          havo := none
          vwo := some { pass_rate_2024_2025 := some 0
                        average_pass_rate_5yr := none
                        candidates_2024_2025 := some 400 } } }

/-- The spec's §8 academic example: only `vwo`, pass rate 80, no 5-year
average, 400 candidates. -/
def schoolVwo80 : School :=
  { schoolSparse with
      id := "vwo80"
      exam_scores := some
        { vmbo := none
          havo := none
          vwo := some { pass_rate_2024_2025 := some 80
                        average_pass_rate_5yr := none
                        candidates_2024_2025 := some 400 } } }

/-- A school with data in every category except parent reviews. -/
def schoolNoParent : School :=
  { id := "noparent"
    basic_info := { name := "No Parent Data Lyceum", city := some "Amsterdam",
                    type := ["vwo"], religious_affiliation := none,
                    enrollment_total := some 900 }
    exam_scores := some
      { vmbo := none
        havo := none
        vwo := some { pass_rate_2024_2025 := some 90
                      average_pass_rate_5yr := some 88
                      candidates_2024_2025 := some 100 } }
    special_programs := ["technasium"]
    extracurricular_activities := ["debate", "chess"]
    bike_duration_minutes := some 12
    transit_duration_minutes := none
    parent_reviews := []
    student_reviews := [{ overall_rating := some 8, would_recommend := none,
                          voice_matters := some 7 }]
    facilities := { technology := some { description := some "laptops" },
                    sports_facilities := ["gym"],
                    classrooms_labs_quality := "labs", library := true }
    after_school_programs := ["homework club"] }

/-- A school with a first parent and student review whose
`overall_rating` is exactly 0. -/
def schoolZeroRating : School :=
  { schoolSparse with
      id := "zerorating"
      parent_reviews := [{ overall_rating := some 0
                           would_recommend := some 9
                           voice_matters := none }]
      student_reviews := [{ overall_rating := some 0
                            would_recommend := none
                            voice_matters := some 9 }] }

/-! ## Rounding lemmas -/

theorem roundHalfEven_ge_floor (q : ℚ) : ⌊q⌋ ≤ roundHalfEven q := by
  unfold roundHalfEven
  dsimp only
  split_ifs <;> omega

theorem roundHalfEven_le_floor_add_one (q : ℚ) : roundHalfEven q ≤ ⌊q⌋ + 1 := by
  unfold roundHalfEven
  dsimp only
  split_ifs <;> omega

theorem roundHalfEven_intCast (n : ℤ) : roundHalfEven (n : ℚ) = n := by
  unfold roundHalfEven
  dsimp only
  rw [Int.floor_intCast]
  norm_num

theorem roundHalfEven_mono {x y : ℚ} (h : x ≤ y) :
    roundHalfEven x ≤ roundHalfEven y := by
  have hfl : ⌊x⌋ ≤ ⌊y⌋ := Int.floor_le_floor h
  rcases lt_or_eq_of_le hfl with hlt | heq
  · calc roundHalfEven x ≤ ⌊x⌋ + 1 := roundHalfEven_le_floor_add_one x
      _ ≤ ⌊y⌋ := by omega
      _ ≤ roundHalfEven y := roundHalfEven_ge_floor y
  · have hfr : x - (⌊x⌋ : ℚ) ≤ y - (⌊y⌋ : ℚ) := by
      rw [← heq]; linarith
    unfold roundHalfEven
    dsimp only
    rw [← heq]
    split_ifs <;> first | omega | linarith

theorem pyRound1_intCast (n : ℤ) : pyRound1 (n : ℚ) = n := by
  unfold pyRound1
  have h : (n : ℚ) * 10 = ((n * 10 : ℤ) : ℚ) := by push_cast; ring
  rw [h, roundHalfEven_intCast]
  push_cast
  field_simp

theorem pyRound1_mono {x y : ℚ} (h : x ≤ y) : pyRound1 x ≤ pyRound1 y := by
  unfold pyRound1
  have := roundHalfEven_mono (mul_le_mul_of_nonneg_right h (by norm_num : (0:ℚ) ≤ 10))
  have hcast : ((roundHalfEven (x * 10) : ℚ)) ≤ (roundHalfEven (y * 10) : ℚ) := by
    exact_mod_cast this
  linarith

theorem pyRound1_nonneg {q : ℚ} (h : 0 ≤ q) : 0 ≤ pyRound1 q := by
  have h0 : pyRound1 ((0 : ℤ) : ℚ) = 0 := by
    rw [pyRound1_intCast]; norm_num
  have := pyRound1_mono (by exact_mod_cast h : ((0 : ℤ) : ℚ) ≤ q)
  rw [h0] at this
  exact this

/-! ## Scorer totality: no scorer models a raised exception -/

theorem isSome_opt_map {α β : Type} (f : α → β) (o : Option α) :
    (o.map f).isSome = o.isSome := by
  cases o <;> rfl

theorem calculate_academic_score_isSome (s : School) :
    (calculate_academic_score s).isSome := by
  unfold calculate_academic_score
  cases s.exam_scores with
  | none => rfl
  | some es =>
    dsimp only
    split
    · rfl
    · rw [isSome_opt_map]
      split
      · rfl
      · rw [isSome_opt_map]
        unfold mean
        split
        · simp_all
        · rfl

theorem calculate_proximity_score_isSome (s : School) :
    (calculate_proximity_score s).isSome := by
  unfold calculate_proximity_score
  dsimp only
  split
  · rfl
  · rename_i h
    rw [isSome_opt_map]
    by_cases hb : pyTruthy s.bike_duration_minutes = true
    · simp only [hb, if_true]
      cases hbv : s.bike_duration_minutes with
      | none => rw [hbv] at hb; simp [pyTruthy] at hb
      | some v => rfl
    · have ht : pyTruthy s.transit_duration_minutes = true := by
        by_contra hcon
        exact h ⟨by simpa using hb, by simpa using hcon⟩
      simp only [hb, if_false]
      cases htv : s.transit_duration_minutes with
      | none => rw [htv] at ht; simp [pyTruthy] at ht
      | some v => rfl

theorem calculate_parent_satisfaction_score_isSome (s : School) :
    (calculate_parent_satisfaction_score s).isSome := by
  unfold calculate_parent_satisfaction_score
  cases s.parent_reviews with
  | nil => rfl
  | cons latest rest =>
    dsimp only
    cases latest.overall_rating with
    | none => rfl
    | some rating =>
      dsimp only
      split <;> rfl

theorem calculate_student_satisfaction_score_isSome (s : School) :
    (calculate_student_satisfaction_score s).isSome := by
  unfold calculate_student_satisfaction_score
  cases s.student_reviews with
  | nil => rfl
  | cons latest rest =>
    dsimp only
    cases latest.overall_rating with
    | none => rfl
    | some rating =>
      dsimp only
      split <;> rfl

theorem calculate_facilities_score_isSome (s : School) :
    (calculate_facilities_score s).isSome := rfl

theorem calculate_school_size_score_isSome (s : School) (pref : String) :
    (calculate_school_size_score s pref).isSome := by
  unfold calculate_school_size_score
  cases s.basic_info.enrollment_total with
  | none => rfl
  | some e =>
    dsimp only
    split <;> rfl

theorem calculate_extracurriculars_score_isSome (s : School) :
    (calculate_extracurriculars_score s).isSome := by
  unfold calculate_extracurriculars_score
  dsimp only
  split <;> rfl

theorem calculate_special_programs_score_isSome (s : School) :
    (calculate_special_programs_score s).isSome := by
  unfold calculate_special_programs_score
  dsimp only
  split <;> rfl

/-! ## Closed form of the composite aggregation loop -/

/-- Whether a `(category, weight)` pair of the weights mapping contributes:
the category is among the computed scores and its score is non-null. -/
def contributes (scores : List (String × CategoryScore)) (cw : String × ℚ) : Bool :=
  match scores.lookup cw.1 with
  | some score_data => score_data.score.isSome
  | none => false

/-- A contributing pair's term `score × weight` (0 otherwise). -/
def contribution (scores : List (String × CategoryScore)) (cw : String × ℚ) : ℚ :=
  match scores.lookup cw.1 with
  | some score_data =>
    match score_data.score with
    | some sc => sc * cw.2
    | none => 0
  | none => 0

/-- The loop's `weighted_sum`: the weighted sum over exactly the pairs of
the weights mapping whose category has a non-null score. -/
def weightedSum (scores : List (String × CategoryScore)) (w : List (String × ℚ)) : ℚ :=
  ((w.filter (contributes scores)).map (contribution scores)).sum

/-- The loop's `total_weight`: the sum of the weights of exactly the
contributing pairs. -/
def totalWeight (scores : List (String × CategoryScore)) (w : List (String × ℚ)) : ℚ :=
  ((w.filter (contributes scores)).map fun cw => cw.2).sum

theorem foldl_compositeStep (scores : List (String × CategoryScore))
    (w : List (String × ℚ)) (a b : ℚ) :
    w.foldl (compositeStep scores) (a, b) =
      (a + weightedSum scores w, b + totalWeight scores w) := by
  induction w generalizing a b with
  | nil => simp [weightedSum, totalWeight]
  | cons cw tl ih =>
    rw [List.foldl_cons]
    cases h1 : scores.lookup cw.1 with
    | none =>
      have hc : contributes scores cw = false := by simp [contributes, h1]
      have hstep : compositeStep scores (a, b) cw = (a, b) := by
        simp [compositeStep, h1]
      rw [hstep, ih]
      simp [weightedSum, totalWeight, List.filter_cons, hc]
    | some sd =>
      cases h2 : sd.score with
      | none =>
        have hc : contributes scores cw = false := by simp [contributes, h1, h2]
        have hstep : compositeStep scores (a, b) cw = (a, b) := by
          simp [compositeStep, h1, h2]
        rw [hstep, ih]
        simp [weightedSum, totalWeight, List.filter_cons, hc]
      | some sc =>
        have hc : contributes scores cw = true := by simp [contributes, h1, h2]
        have hstep : compositeStep scores (a, b) cw = (a + sc * cw.2, b + cw.2) := by
          simp [compositeStep, h1, h2]
        rw [hstep, ih]
        have hcon : contribution scores cw = sc * cw.2 := by
          simp [contribution, h1, h2]
        simp only [weightedSum, totalWeight, List.filter_cons, hc, if_true,
          List.map_cons, List.sum_cons, hcon]
        rw [add_assoc, add_assoc]

/-- The value the code stores under `composite_score`: defined whenever
`total_weight > 0` and the average is non-zero (Python truthiness at the
final rounding step). -/
def compositeOf (scores : List (String × CategoryScore)) (w : List (String × ℚ)) :
    Option ℚ :=
  if 0 < totalWeight scores w then
    if weightedSum scores w / totalWeight scores w = 0 then none
    else some (pyRound1 (weightedSum scores w / totalWeight scores w))
  else none

/-- Every school has a full scores map: all eight scorers return. -/
theorem category_scores_map_isSome (s : School) (pref : String) :
    (category_scores_map s pref).isSome := by
  unfold category_scores_map
  obtain ⟨a, ha⟩ := Option.isSome_iff_exists.mp (calculate_academic_score_isSome s)
  obtain ⟨px, hpx⟩ := Option.isSome_iff_exists.mp (calculate_proximity_score_isSome s)
  obtain ⟨pa, hpa⟩ :=
    Option.isSome_iff_exists.mp (calculate_parent_satisfaction_score_isSome s)
  obtain ⟨st, hst⟩ :=
    Option.isSome_iff_exists.mp (calculate_student_satisfaction_score_isSome s)
  obtain ⟨f, hf⟩ := Option.isSome_iff_exists.mp (calculate_facilities_score_isSome s)
  obtain ⟨sz, hsz⟩ :=
    Option.isSome_iff_exists.mp (calculate_school_size_score_isSome s pref)
  obtain ⟨ex, hex⟩ :=
    Option.isSome_iff_exists.mp (calculate_extracurriculars_score_isSome s)
  obtain ⟨sp, hsp⟩ :=
    Option.isSome_iff_exists.mp (calculate_special_programs_score_isSome s)
  simp [ha, hpx, hpa, hst, hf, hsz, hex, hsp]

/-- Closed form of `calculate_composite_score`, given the scores map. -/
theorem calculate_composite_score_eq (s : School) (w : List (String × ℚ))
    (p : Option String) (scores : List (String × CategoryScore))
    (hsc : category_scores_map s (p.getD "medium") = some scores) :
    calculate_composite_score s w p =
      some { composite_score := compositeOf scores w
             category_scores := scores
             weights_used := w
             total_weight := totalWeight scores w } := by
  have hfold := foldl_compositeStep scores w 0 0
  simp only [calculate_composite_score, hsc, Option.bind_eq_bind, Option.some_bind,
    hfold, zero_add, compositeOf, pure, gt_iff_lt]
  split_ifs with h1 h2
  · simp [h2]
  · have htw : totalWeight scores w ≠ 0 := ne_of_gt h1
    have hws : weightedSum scores w ≠ 0 := by
      intro h0
      exact h2 (by rw [h0, zero_div])
    simp [htw, hws]
  · simp

/-! ## Shape of the scores map -/

theorem category_scores_map_shape (s : School) (pref : String)
    (scores : List (String × CategoryScore))
    (hsc : category_scores_map s pref = some scores) :
    ∃ a px pa st f sz ex sp,
      calculate_academic_score s = some a ∧
      calculate_proximity_score s = some px ∧
      calculate_parent_satisfaction_score s = some pa ∧
      calculate_student_satisfaction_score s = some st ∧
      calculate_facilities_score s = some f ∧
      calculate_school_size_score s pref = some sz ∧
      calculate_extracurriculars_score s = some ex ∧
      calculate_special_programs_score s = some sp ∧
      scores = [("academic_performance", a), ("proximity", px),
        ("parent_satisfaction", pa), ("student_satisfaction", st),
        ("facilities", f), ("school_size", sz), ("extracurriculars", ex),
        ("special_programs", sp)] := by
  obtain ⟨a, ha⟩ := Option.isSome_iff_exists.mp (calculate_academic_score_isSome s)
  obtain ⟨px, hpx⟩ := Option.isSome_iff_exists.mp (calculate_proximity_score_isSome s)
  obtain ⟨pa, hpa⟩ :=
    Option.isSome_iff_exists.mp (calculate_parent_satisfaction_score_isSome s)
  obtain ⟨st, hst⟩ :=
    Option.isSome_iff_exists.mp (calculate_student_satisfaction_score_isSome s)
  obtain ⟨f, hf⟩ := Option.isSome_iff_exists.mp (calculate_facilities_score_isSome s)
  obtain ⟨sz, hsz⟩ :=
    Option.isSome_iff_exists.mp (calculate_school_size_score_isSome s pref)
  obtain ⟨ex, hex⟩ :=
    Option.isSome_iff_exists.mp (calculate_extracurriculars_score_isSome s)
  obtain ⟨sp, hsp⟩ :=
    Option.isSome_iff_exists.mp (calculate_special_programs_score_isSome s)
  refine ⟨a, px, pa, st, f, sz, ex, sp, ha, hpx, hpa, hst, hf, hsz, hex, hsp, ?_⟩
  simp only [category_scores_map, ha, hpx, hpa, hst, hf, hsz, hex, hsp,
    Option.bind_eq_bind, Option.some_bind, pure, Option.some_inj] at hsc
  exact hsc.symm

/-! ## Per-scorer value bounds and characterizations -/

theorem calculate_facilities_score_bounds (s : School) :
    ∃ v d, calculate_facilities_score s = some ⟨some v, d⟩ ∧ 50 ≤ v ∧ v ≤ 100 := by
  unfold calculate_facilities_score
  dsimp only
  refine ⟨_, _, rfl, ?_, ?_⟩ <;>
    split_ifs <;> norm_num [pyRound1, roundHalfEven]

theorem minTable_bounds (n : ℕ) (k : ℚ) (hk : 0 ≤ k) :
    50 ≤ min (50 + (n : ℚ) * k) 100 ∧ min (50 + (n : ℚ) * k) 100 ≤ 100 := by
  constructor
  · rw [le_min_iff]
    constructor
    · have h0 : (0:ℚ) ≤ (n:ℚ) := by positivity
      nlinarith
    · norm_num
  · exact min_le_right _ _

theorem calculate_extracurriculars_score_bounds (s : School) :
    ∃ v d, calculate_extracurriculars_score s = some ⟨some v, d⟩ ∧ 50 ≤ v ∧ v ≤ 100 := by
  unfold calculate_extracurriculars_score
  dsimp only
  split_ifs with h
  · exact ⟨50, _, rfl, by norm_num, by norm_num⟩
  · exact ⟨_, _, rfl, (minTable_bounds _ 5 (by norm_num)).1,
      (minTable_bounds _ 5 (by norm_num)).2⟩

theorem calculate_special_programs_score_bounds (s : School) :
    ∃ v d, calculate_special_programs_score s = some ⟨some v, d⟩ ∧ 50 ≤ v ∧ v ≤ 100 := by
  unfold calculate_special_programs_score
  dsimp only
  split_ifs with h h2
  · exact ⟨50, _, rfl, by norm_num, by norm_num⟩
  · exact ⟨_, _, rfl, (minTable_bounds _ 10 (by norm_num)).1,
      (minTable_bounds _ 10 (by norm_num)).2⟩
  · exact ⟨_, _, rfl, (minTable_bounds _ 10 (by norm_num)).1,
      (minTable_bounds _ 10 (by norm_num)).2⟩

/-- The inline proximity score expression equals the spec's piecewise
formula. -/
theorem proximity_code_eq_formula (m : ℚ) :
    (if m ≤ 10 then 100 - m * 1
     else if m ≤ 30 then 90 - (m - 10) * 2
     else max (50 - (m - 30) * 1) 0) = proximityFormula m := by
  unfold proximityFormula
  split_ifs <;> ring_nf

theorem proximityFormula_nonneg (m : ℚ) : 0 ≤ proximityFormula m := by
  unfold proximityFormula
  split_ifs with h1 h2
  · linarith
  · linarith
  · exact le_max_right _ _

theorem proximityFormula_antitone {m1 m2 : ℚ} (h : m1 ≤ m2) :
    proximityFormula m2 ≤ proximityFormula m1 := by
  unfold proximityFormula
  split_ifs with h1 h2 h3 h3 h4 h4 <;>
    first
    | linarith
    | exact max_le (by linarith) (by linarith)
    | exact le_max_iff.mpr (Or.inl (by linarith))
    | exact max_le_max (by linarith) le_rfl

/-- Characterization of the proximity scorer when some commute is
truthy: the score is the rounded piecewise formula of the primary
minutes. -/
theorem calculate_proximity_score_eq (s : School)
    (h : pyTruthy s.bike_duration_minutes = true ∨
         pyTruthy s.transit_duration_minutes = true) :
    ∃ m, (if pyTruthy s.bike_duration_minutes then s.bike_duration_minutes
          else s.transit_duration_minutes) = some m ∧
      (calculate_proximity_score s).map CategoryScore.score =
        some (some (pyRound1 (proximityFormula m))) := by
  have hg : ¬(¬ pyTruthy s.bike_duration_minutes
      ∧ ¬ pyTruthy s.transit_duration_minutes) := by
    rcases h with h | h
    · exact fun hc => hc.1 h
    · exact fun hc => hc.2 h
  unfold calculate_proximity_score
  dsimp only
  rw [if_neg hg]
  by_cases hb : pyTruthy s.bike_duration_minutes = true
  · cases hbv : s.bike_duration_minutes with
    | none => rw [hbv] at hb; simp [pyTruthy] at hb
    | some m =>
      rw [hbv] at hb
      refine ⟨m, by rw [if_pos hb], ?_⟩
      rw [if_pos hb, if_pos hb]
      simp only [Option.map_some']
      rw [proximity_code_eq_formula]
  · have ht : pyTruthy s.transit_duration_minutes = true := by
      rcases h with h | h
      · exact absurd h hb
      · exact h
    cases htv : s.transit_duration_minutes with
    | none => rw [htv] at ht; simp [pyTruthy] at ht
    | some m =>
      rw [htv] at ht
      refine ⟨m, by rw [if_neg hb], ?_⟩
      rw [if_neg hb, if_neg hb]
      simp only [Option.map_some']
      rw [proximity_code_eq_formula]

/-! ## School size lemmas -/

theorem calculate_school_size_score_eq (s : School) (pref : String) (e : ℕ)
    (he : s.basic_info.enrollment_total = some e) (hpos : 0 < e) :
    ∃ d, calculate_school_size_score s pref =
      some ⟨some (sizeScore pref (sizeCategory e)), d⟩ := by
  unfold calculate_school_size_score
  rw [he]
  dsimp only
  rw [if_neg (by omega : ¬ e = 0)]
  exact ⟨_, rfl⟩

/-- The code's bucketing in interval form: `medium` runs to 1000
inclusive, `large` from 1001 to 1500. -/
theorem sizeCategory_eq (e : ℕ) :
    sizeCategory e = if e < 500 then "small" else if e ≤ 1000 then "medium"
      else if e ≤ 1500 then "large" else "very_large" := by
  unfold sizeCategory
  split_ifs <;> first | rfl | omega

theorem sizeScore_any (cat : String) : sizeScore "any" cat = 80 := by
  have h : sizeRow "any" = sizeRowAny := by
    unfold sizeRow
    simp
  unfold sizeScore
  rw [h]
  unfold sizeRowAny
  split_ifs <;> rfl

theorem sizeScore_unknown_pref (p : String) (hp1 : p ≠ "small")
    (hp2 : p ≠ "medium") (hp3 : p ≠ "large") (cat : String) :
    sizeScore p cat = sizeScore "any" cat := by
  have h : sizeRow "any" = sizeRowAny := by
    unfold sizeRow
    simp
  unfold sizeScore
  rw [h]
  unfold sizeRow
  rw [if_neg hp1, if_neg hp2, if_neg hp3, ite_self]

/-! ## Satisfaction lemmas -/

theorem parent_satisfaction_zero_rating (s : School) (rev : Review)
    (rest : List Review) (h : s.parent_reviews = rev :: rest)
    (hr : rev.overall_rating = some 0) :
    calculate_parent_satisfaction_score s = some ⟨none, "No rating available"⟩ := by
  unfold calculate_parent_satisfaction_score
  rw [h]
  dsimp only
  rw [hr]
  simp

theorem student_satisfaction_zero_rating (s : School) (rev : Review)
    (rest : List Review) (h : s.student_reviews = rev :: rest)
    (hr : rev.overall_rating = some 0) :
    calculate_student_satisfaction_score s = some ⟨none, "No rating available"⟩ := by
  unfold calculate_student_satisfaction_score
  rw [h]
  dsimp only
  rw [hr]
  simp

/-! ## Academic scorer: equivalence with the (truthiness-read) spec formula -/

theorem levelData_weight_pos (es : ExamScores) (p : String × ℚ)
    (hp : p ∈ levelData es) : 0 < levelWeight p.1 := by
  unfold levelData at hp
  rw [List.mem_filterMap] at hp
  obtain ⟨lv, hlv, hf⟩ := hp
  cases hgl : es.get lv with
  | none => rw [hgl] at hf; simp at hf
  | some l =>
    rw [hgl] at hf
    simp only [Option.some_bind] at hf
    cases hpr : l.pass_rate_2024_2025 with
    | none => rw [hpr] at hf; simp at hf
    | some r =>
      rw [hpr] at hf
      dsimp only at hf
      by_cases hr0 : r = 0
      · rw [if_neg (by simp [hr0])] at hf
        exact absurd hf (by simp)
      · rw [if_pos (by simpa using hr0)] at hf
        have hp1 : p.1 = lv := by
          cases hf
          rfl
        rw [hp1]
        simp only [levelNames, List.mem_cons, List.mem_singleton] at hlv
        rcases hlv with rfl | rfl | rfl | hlv
        · rw [show levelWeight "vmbo" = 7/10 from rfl]
          norm_num
        · rw [show levelWeight "havo" = 1 from rfl]
          norm_num
        · rw [show levelWeight "vwo" = 3/2 from rfl]
          norm_num
        · simp at hlv

/-- The single-level special case at lines 80-81 agrees with the general
weighted-mean formula. -/
theorem academic_current_rate_eq (es : ExamScores) (hld : levelData es ≠ []) :
    (match levelData es with
     | [single] => single.2
     | _ => ((levelData es).map fun p => p.2 * levelWeight p.1).sum /
            ((levelData es).map fun p => levelWeight p.1).sum) =
      ((levelData es).map fun p => p.2 * levelWeight p.1).sum /
        ((levelData es).map fun p => levelWeight p.1).sum := by
  cases hld2 : levelData es with
  | nil => exact absurd hld2 hld
  | cons p tl =>
    cases tl with
    | nil =>
      dsimp only
      have hw : levelWeight p.1 ≠ 0 := by
        have := levelData_weight_pos es p (by rw [hld2]; exact List.mem_singleton_self p)
        exact ne_of_gt this
      rw [List.map_singleton, List.map_singleton, List.sum_singleton,
        List.sum_singleton, mul_div_cancel_right₀ _ hw]
    | cons q tl2 => rfl

theorem candidates_total_eq (es : ExamScores) :
    (if candidateCounts es = [] then 0 else (candidateCounts es).sum) =
      (candidateCounts es).sum := by
  split_ifs with h
  · rw [h]; rfl
  · rfl

/-- The academic scorer's returned score equals §4.1's formula with
presence read as truthiness (including for a single present level, where
the code's special case agrees with the weighted mean). -/
theorem calculate_academic_score_eq_spec (s : School) :
    (calculate_academic_score s).map CategoryScore.score =
      some (academic_spec_truthy s) := by
  unfold calculate_academic_score academic_spec_truthy
  cases hes : s.exam_scores with
  | none => rfl
  | some es =>
    dsimp only
    by_cases hld : levelData es = []
    · rw [if_pos hld, if_pos hld]
      rfl
    · rw [if_neg hld, if_neg hld]
      rw [academic_current_rate_eq es hld]
      by_cases hav : fiveYearAvgs es = []
      · rw [if_pos hav]
        have hmean : mean (fiveYearAvgs es) = none := by
          unfold mean
          rw [if_pos hav]
        rw [hmean]
        simp only [Option.map_some']
        rw [candidates_total_eq]
      · rw [if_neg hav]
        have hmean : mean (fiveYearAvgs es) =
            some ((fiveYearAvgs es).sum / ((fiveYearAvgs es).length : ℚ)) := by
          unfold mean
          rw [if_neg hav]
        rw [hmean]
        simp only [Option.map_some']
        rw [candidates_total_eq]

/-! ## Stable descending sort lemmas -/

theorem insertDesc_perm (key : School × CompositeResult → ℚ)
    (x : School × CompositeResult) (l : List (School × CompositeResult)) :
    (insertDesc key x l).Perm (x :: l) := by
  induction l with
  | nil => exact List.Perm.refl _
  | cons y ys ih =>
    unfold insertDesc
    split_ifs with h
    · exact List.Perm.refl _
    · exact (ih.cons y).trans (List.Perm.swap x y ys)

theorem insertDesc_sorted (key : School × CompositeResult → ℚ)
    (x : School × CompositeResult) (l : List (School × CompositeResult))
    (hl : l.Pairwise fun a b => key b ≤ key a) :
    (insertDesc key x l).Pairwise fun a b => key b ≤ key a := by
  induction l with
  | nil => simp [insertDesc]
  | cons y ys ih =>
    rw [List.pairwise_cons] at hl
    obtain ⟨hy, hys⟩ := hl
    unfold insertDesc
    split_ifs with hcomp
    · rw [List.pairwise_cons]
      refine ⟨?_, by rw [List.pairwise_cons]; exact ⟨hy, hys⟩⟩
      intro z hz
      rcases List.mem_cons.mp hz with rfl | hz
      · exact le_of_lt hcomp
      · exact le_trans (hy z hz) (le_of_lt hcomp)
    · rw [List.pairwise_cons]
      refine ⟨?_, ih hys⟩
      intro z hz
      have hz2 : z = x ∨ z ∈ ys := by
        have hperm := insertDesc_perm key x ys
        simpa using hperm.mem_iff.mp hz
      rcases hz2 with rfl | hz2
      · exact not_lt.mp hcomp
      · exact hy z hz2

theorem insertDesc_filter_pos (key : School × CompositeResult → ℚ) (q : ℚ)
    (x : School × CompositeResult) (l : List (School × CompositeResult))
    (hl : l.Pairwise fun a b => key b ≤ key a) (hx : key x = q) :
    (insertDesc key x l).filter (fun z => key z == q) =
      (l.filter fun z => key z == q) ++ [x] := by
  have hxq : (key x == q) = true := by simp [hx]
  induction l with
  | nil =>
    unfold insertDesc
    simp [List.filter_singleton, hxq]
  | cons y ys ih =>
    rw [List.pairwise_cons] at hl
    obtain ⟨hy, hys⟩ := hl
    unfold insertDesc
    split_ifs with hcomp
    · have hfilter : (y :: ys).filter (fun z => key z == q) = [] := by
        rw [List.filter_eq_nil_iff]
        intro z hz
        rcases List.mem_cons.mp hz with rfl | hz2
        · simpa using ne_of_lt (hx ▸ hcomp)
        · simpa using ne_of_lt (lt_of_le_of_lt (hy z hz2) (hx ▸ hcomp))
      simp [List.filter_cons, hxq, hfilter]
    · by_cases hyq : key y = q
      · have hyq2 : (key y == q) = true := by simp [hyq]
        simp [List.filter_cons, hyq2, ih hys]
      · have hyq2 : (key y == q) = false := by simp [hyq]
        simp [List.filter_cons, hyq2, ih hys]

theorem insertDesc_filter_neg (key : School × CompositeResult → ℚ) (q : ℚ)
    (x : School × CompositeResult) (l : List (School × CompositeResult))
    (hx : ¬ key x = q) :
    (insertDesc key x l).filter (fun z => key z == q) =
      l.filter fun z => key z == q := by
  have hxq : (key x == q) = false := by simp [hx]
  induction l with
  | nil =>
    unfold insertDesc
    simp [List.filter_singleton, hxq]
  | cons y ys ih =>
    unfold insertDesc
    split_ifs with hcomp
    · simp [List.filter_cons, hxq]
    · by_cases hyq : key y = q
      · have hyq2 : (key y == q) = true := by simp [hyq]
        simp [List.filter_cons, hyq2, ih]
      · have hyq2 : (key y == q) = false := by simp [hyq]
        simp [List.filter_cons, hyq2, ih]

theorem foldl_insertDesc_sorted (key : School × CompositeResult → ℚ)
    (l acc : List (School × CompositeResult))
    (hacc : acc.Pairwise fun a b => key b ≤ key a) :
    (l.foldl (fun acc x => insertDesc key x acc) acc).Pairwise
      fun a b => key b ≤ key a := by
  induction l generalizing acc with
  | nil => exact hacc
  | cons x xs ih =>
    rw [List.foldl_cons]
    exact ih _ (insertDesc_sorted key x acc hacc)

theorem foldl_insertDesc_perm (key : School × CompositeResult → ℚ)
    (l acc : List (School × CompositeResult)) :
    (l.foldl (fun acc x => insertDesc key x acc) acc).Perm (acc ++ l) := by
  induction l generalizing acc with
  | nil => simp
  | cons x xs ih =>
    rw [List.foldl_cons]
    refine (ih _).trans ?_
    refine ((insertDesc_perm key x acc).append_right xs).trans ?_
    exact List.perm_middle.symm

theorem foldl_insertDesc_filter (key : School × CompositeResult → ℚ) (q : ℚ)
    (l acc : List (School × CompositeResult))
    (hacc : acc.Pairwise fun a b => key b ≤ key a) :
    (l.foldl (fun acc x => insertDesc key x acc) acc).filter (fun y => key y == q) =
      (acc.filter fun y => key y == q) ++ (l.filter fun y => key y == q) := by
  induction l generalizing acc with
  | nil => simp
  | cons x xs ih =>
    rw [List.foldl_cons, ih _ (insertDesc_sorted key x acc hacc)]
    by_cases hx : key x = q
    · rw [insertDesc_filter_pos key q x acc hacc hx, List.filter_cons]
      have hxq : (key x == q) = true := by simp [hx]
      simp [hxq]
    · rw [insertDesc_filter_neg key q x acc hx, List.filter_cons]
      have hxq : (key x == q) = false := by simp [hx]
      simp [hxq]

theorem sortDesc_sorted (key : School × CompositeResult → ℚ)
    (l : List (School × CompositeResult)) :
    (sortDesc key l).Pairwise fun a b => key b ≤ key a :=
  foldl_insertDesc_sorted key l [] List.Pairwise.nil

theorem sortDesc_perm (key : School × CompositeResult → ℚ)
    (l : List (School × CompositeResult)) : (sortDesc key l).Perm l := by
  have := foldl_insertDesc_perm key l []
  simpa [sortDesc] using this

theorem sortDesc_filter (key : School × CompositeResult → ℚ) (q : ℚ)
    (l : List (School × CompositeResult)) :
    (sortDesc key l).filter (fun y => key y == q) = l.filter fun y => key y == q := by
  have := foldl_insertDesc_filter key q l [] List.Pairwise.nil
  simpa [sortDesc] using this

/-! ## Ranking totality -/

theorem mapOption_isSome {α β : Type} (f : α → Option β) (l : List α)
    (hf : ∀ x, (f x).isSome) : (mapOption f l).isSome := by
  induction l with
  | nil => rfl
  | cons x xs ih =>
    unfold mapOption
    obtain ⟨y, hy⟩ := Option.isSome_iff_exists.mp (hf x)
    obtain ⟨ys, hys⟩ := Option.isSome_iff_exists.mp ih
    simp [hy, hys]

theorem calculate_composite_score_isSome (s : School) (w : List (String × ℚ))
    (p : Option String) : (calculate_composite_score s w p).isSome := by
  obtain ⟨scores, hsc⟩ :=
    Option.isSome_iff_exists.mp (category_scores_map_isSome s (p.getD "medium"))
  rw [calculate_composite_score_eq s w p scores hsc]
  rfl

theorem rank_results_isSome (schools : List School) (w : List (String × ℚ))
    (p : Option String) (f : Option Filters) :
    (rank_results schools w p f).isSome := by
  unfold rank_results
  have h := mapOption_isSome
    (fun s => (calculate_composite_score s w p).map fun sd => (s, sd))
    (schools.filter fun s => passes_filters_opt s f)
    (fun s => by rw [isSome_opt_map]; exact calculate_composite_score_isSome s w p)
  obtain ⟨scored, hscored⟩ := Option.isSome_iff_exists.mp h
  simp [hscored]

/-! ## Filter lemmas -/

theorem string_data_eq_nil {s : String} (h : s.data = []) : s = "" := by
  cases s with
  | mk data =>
    simp only at h
    rw [h]

theorem pyLower_ne_empty {s : String} (h : s ≠ "") : pyLower s ≠ "" := by
  intro hc
  apply h
  have hdata : s.data.map Char.toLower = [] := congrArg String.data hc
  exact string_data_eq_nil (List.map_eq_nil_iff.mp hdata)

theorem charsContain_nil_right (pat : List Char) (h : pat ≠ []) :
    charsContain [] pat = false := by
  unfold charsContain
  simp [h]

/-- Only the `max_commute_minutes` filter is permissive on a missing
school field: with no bike duration recorded the school passes. -/
theorem passes_max_commute_missing (s : School) (t : ℚ)
    (hb : s.bike_duration_minutes = none) :
    passes_filters s ⟨none, none, some t, none⟩ = true := by
  unfold passes_filters
  rw [hb]
  rfl

theorem passes_max_commute_over (s : School) (t m : ℚ)
    (hb : s.bike_duration_minutes = some m) (hm : m ≠ 0) (hgt : m > t) :
    passes_filters s ⟨none, none, some t, none⟩ = false := by
  unfold passes_filters
  rw [hb]
  simp [pyTruthy, hm, hgt]

theorem passes_max_commute_under (s : School) (t m : ℚ)
    (hb : s.bike_duration_minutes = some m) (hle : m ≤ t) :
    passes_filters s ⟨none, none, some t, none⟩ = true := by
  unfold passes_filters
  rw [hb]
  simp only [Bool.and_eq_true]
  have hng : ¬ (m > t) := not_lt.mpr hle
  simp [pyTruthy, hng]

/-- A school with no `basic_info.city` is excluded by a non-empty city
filter: the default `''` never equals a non-empty lowered filter value. -/
theorem passes_city_missing (s : School) (c : String)
    (hc : s.basic_info.city = none) (hne : c ≠ "") :
    passes_filters s ⟨none, none, none, some c⟩ = false := by
  unfold passes_filters
  rw [hc]
  simp only [Option.getD_none]
  have h2 : pyLower c ≠ "" := pyLower_ne_empty hne
  have h4 : ¬ (pyLower "" = pyLower c) := by
    intro hcon
    exact h2 (hcon.symm.trans rfl)
  simp [hne, h4]

/-- A school with no `basic_info.religious_affiliation` is excluded by a
non-empty religious-affiliation filter: a non-empty needle is not a
substring of the default `''`. -/
theorem passes_religion_missing (s : School) (fa : String)
    (hr : s.basic_info.religious_affiliation = none) (hne : fa ≠ "") :
    passes_filters s ⟨none, some fa, none, none⟩ = false := by
  unfold passes_filters
  rw [hr]
  simp only [Option.getD_none]
  have h2 : (pyLower fa).data ≠ [] := by
    intro hcdata
    exact pyLower_ne_empty hne (string_data_eq_nil hcdata)
  have h3 : charsContain (pyLower "").data (pyLower fa).data = false :=
    charsContain_nil_right _ h2
  simp [hne, h3]

/-- A school with no `type` list is excluded by a non-empty school-type
filter. -/
theorem passes_school_type_missing (s : School) (fts : List String)
    (ht : s.basic_info.type = []) (hne : fts ≠ []) :
    passes_filters s ⟨some fts, none, none, none⟩ = false := by
  unfold passes_filters
  rw [ht]
  simp [hne]

/-! ## More proximity helpers -/

/-- Sparse school with a recorded 10-minute bike commute. -/
def schoolProx10 : School :=
  { schoolSparse with id := "prox10", bike_duration_minutes := some 10 }

/-- Sparse school with a recorded 60-minute bike commute. -/
def schoolProx60 : School :=
  { schoolSparse with id := "prox60", bike_duration_minutes := some 60 }

theorem proximity_no_commute (s : School)
    (hb : ¬ pyTruthy s.bike_duration_minutes = true)
    (ht : ¬ pyTruthy s.transit_duration_minutes = true) :
    calculate_proximity_score s = some ⟨none, "No commute data"⟩ := by
  unfold calculate_proximity_score
  dsimp only
  rw [if_pos ⟨hb, ht⟩]

theorem proximity_at_primary (s : School) (m : ℚ)
    (hm : (if pyTruthy s.bike_duration_minutes then s.bike_duration_minutes
           else s.transit_duration_minutes) = some m)
    (ht : pyTruthy s.bike_duration_minutes = true ∨
          pyTruthy s.transit_duration_minutes = true) :
    (calculate_proximity_score s).map CategoryScore.score =
      some (some (pyRound1 (proximityFormula m))) := by
  obtain ⟨m', hm', hscore⟩ := calculate_proximity_score_eq s ht
  rw [hm] at hm'
  injection hm' with he
  rw [← he] at hscore
  exact hscore

theorem proximity_at_bike (s : School) (m : ℚ)
    (hb : s.bike_duration_minutes = some m) (hm : m ≠ 0) :
    (calculate_proximity_score s).map CategoryScore.score =
      some (some (pyRound1 (proximityFormula m))) := by
  have htr : pyTruthy s.bike_duration_minutes = true := by
    rw [hb]; simp [pyTruthy, hm]
  exact proximity_at_primary s m (by rw [if_pos htr, hb]) (Or.inl htr)

theorem proximity_score_nonneg (s : School) (r : CategoryScore) (v : ℚ)
    (h : calculate_proximity_score s = some r) (hv : r.score = some v) : 0 ≤ v := by
  by_cases hg : pyTruthy s.bike_duration_minutes = true ∨
      pyTruthy s.transit_duration_minutes = true
  · obtain ⟨m, hm, hscore⟩ := calculate_proximity_score_eq s hg
    rw [h] at hscore
    simp only [Option.map_some'] at hscore
    have hsc : r.score = some (pyRound1 (proximityFormula m)) := by
      injection hscore
    rw [hv] at hsc
    injection hsc with hveq
    rw [hveq]
    exact pyRound1_nonneg (proximityFormula_nonneg m)
  · push_neg at hg
    have h0 := proximity_no_commute s (by simpa using hg.1) (by simpa using hg.2)
    rw [h0] at h
    injection h with h
    rw [← h] at hv
    simp at hv

/-! ## Claim C3 (corrected) -/

/-- C3 counterexample: the claim says the proximity score at 30 recorded
minutes is 70; the code computes `90 − 2×(30−10) = 50`. -/
theorem C3_counterexample :
    (calculate_proximity_score schoolProx30).map CategoryScore.score =
      some (some 50) ∧ ¬ ((50 : ℚ) = 70) := by
  constructor
  · norm_num [calculate_proximity_score, schoolProx30, schoolSparse, pyTruthy,
      pyRound1, roundHalfEven]
  · norm_num

/-- C3 (amended): with a recorded commute the checkpoints of the code
are minutes=10 ↦ 90, minutes=30 ↦ 50 and minutes=60 ↦ 20; a recorded
0-minute commute (and no transit fallback) is treated as missing data
and scores null; a returned score is never negative. -/
theorem C3_proximity_checkpoints (s : School) :
    (s.bike_duration_minutes = some 10 →
      (calculate_proximity_score s).map CategoryScore.score = some (some 90)) ∧
    (s.bike_duration_minutes = some 30 →
      (calculate_proximity_score s).map CategoryScore.score = some (some 50)) ∧
    (s.bike_duration_minutes = some 60 →
      (calculate_proximity_score s).map CategoryScore.score = some (some 20)) ∧
    (s.bike_duration_minutes = some 0 → s.transit_duration_minutes = none →
      calculate_proximity_score s = some ⟨none, "No commute data"⟩) ∧
    (∀ r v, calculate_proximity_score s = some r → r.score = some v → 0 ≤ v) := by
  refine ⟨?_, ?_, ?_, ?_, ?_⟩
  · intro hb
    rw [proximity_at_bike s 10 hb (by norm_num)]
    norm_num [proximityFormula, pyRound1, roundHalfEven]
  · intro hb
    rw [proximity_at_bike s 30 hb (by norm_num)]
    norm_num [proximityFormula, pyRound1, roundHalfEven]
  · intro hb
    rw [proximity_at_bike s 60 hb (by norm_num)]
    norm_num [proximityFormula, pyRound1, roundHalfEven]
  · intro hb ht
    exact proximity_no_commute s (by rw [hb]; simp [pyTruthy]) (by rw [ht]; simp [pyTruthy])
  · exact fun r v h hv => proximity_score_nonneg s r v h hv

/-- C3 witness: the amended checkpoints at concrete schools. -/
theorem C3_witness :
    (calculate_proximity_score schoolProx10).map CategoryScore.score = some (some 90) ∧
    (calculate_proximity_score schoolProx60).map CategoryScore.score = some (some 20) := by
  exact ⟨(C3_proximity_checkpoints schoolProx10).1 rfl,
    (C3_proximity_checkpoints schoolProx60).2.2.1 rfl⟩

/-! ## Claim C4 (corrected) -/

/-- C4 counterexample: a school with a *present* bike duration of 0 and
a 40-minute transit commute.  The claim's primary commute is the present
bike duration (m = 0) and its formula gives 100; the code treats the
0-minute bike entry as falsy, uses the transit time and returns 40. -/
theorem C4_counterexample :
    schoolBike0Transit40.bike_duration_minutes = some 0 ∧
    pyRound1 (proximityFormula 0) = 100 ∧
    (calculate_proximity_score schoolBike0Transit40).map CategoryScore.score =
      some (some 40) ∧ ¬ ((40 : ℚ) = 100) := by
  refine ⟨rfl, ?_, ?_, by norm_num⟩
  · norm_num [proximityFormula, pyRound1, roundHalfEven]
  · norm_num [calculate_proximity_score, schoolBike0Transit40, schoolSparse, pyTruthy,
      pyRound1, roundHalfEven]

/-- C4 (amended): the primary commute is the bike duration when it is
present and truthy (non-zero), else the transit duration; whenever that
primary value `m` exists the score equals the claim's piecewise formula
rounded to 1 decimal, and the rounded formula is monotonically
non-increasing in `m`. -/
theorem C4_proximity_formula :
    (∀ s : School, pyTruthy s.bike_duration_minutes = true ∨
        pyTruthy s.transit_duration_minutes = true →
      ∃ m, (if pyTruthy s.bike_duration_minutes then s.bike_duration_minutes
            else s.transit_duration_minutes) = some m ∧
        (calculate_proximity_score s).map CategoryScore.score =
          some (some (pyRound1 (proximityFormula m)))) ∧
    (∀ m1 m2 : ℚ, m1 ≤ m2 →
      pyRound1 (proximityFormula m2) ≤ pyRound1 (proximityFormula m1)) := by
  exact ⟨calculate_proximity_score_eq,
    fun m1 m2 h => pyRound1_mono (proximityFormula_antitone h)⟩

/-- C4 witness: the formula evaluated at the 40-minute transit school. -/
theorem C4_witness :
    ∃ m, (if pyTruthy schoolBike0Transit40.bike_duration_minutes
          then schoolBike0Transit40.bike_duration_minutes
          else schoolBike0Transit40.transit_duration_minutes) = some m ∧
      (calculate_proximity_score schoolBike0Transit40).map CategoryScore.score =
        some (some (pyRound1 (proximityFormula m))) := by
  exact C4_proximity_formula.1 schoolBike0Transit40
    (Or.inr (by norm_num [schoolBike0Transit40, schoolSparse, pyTruthy]))

/-! ## Claim C5 (corrected) -/

/-- C5 counterexample: at enrollment exactly 1000 the claim's bucketing
(`large` = 1000–1500) and table give 100 for preference `large`, but the
code buckets 1000 as `medium` (`enrollment > 1000` is strict) and
returns 80. -/
theorem C5_counterexample :
    specBucket 1000 = "large" ∧ sizeScore "large" "large" = 100 ∧
    (calculate_school_size_score schoolEnroll1000 "large").map CategoryScore.score =
      some (some 80) ∧ ¬ ((80 : ℚ) = 100) := by
  refine ⟨rfl, rfl, ?_, by norm_num⟩
  obtain ⟨d, hd⟩ :=
    calculate_school_size_score_eq schoolEnroll1000 "large" 1000 rfl (by norm_num)
  rw [hd]
  rfl

/-- C5 (amended): for a present positive enrollment the scorer returns
exactly the table value at the code's buckets — `small` (<500), `medium`
(500–1000), `large` (1001–1500), `very_large` (>1500); preference
`small` at enrollment 1200 gives 50, the `any` row is a flat 80, and an
unknown preference falls back to the `any` row.  (Enrollment 0 is falsy
and treated as missing; the spec's schema makes enrollment positive.) -/
theorem C5_school_size_table (s : School) (pref : String) (e : ℕ)
    (he : s.basic_info.enrollment_total = some e) (hpos : 0 < e) :
    ∃ r, calculate_school_size_score s pref = some r ∧
      r.score = some (sizeScore pref (sizeCategory e)) ∧
      sizeCategory e = (if e < 500 then "small" else if e ≤ 1000 then "medium"
        else if e ≤ 1500 then "large" else "very_large") ∧
      sizeScore "small" (sizeCategory 1200) = 50 ∧
      (∀ b, sizeScore "any" b = 80) ∧
      (∀ p b, ¬ p = "small" → ¬ p = "medium" → ¬ p = "large" →
        sizeScore p b = sizeScore "any" b) := by
  obtain ⟨d, hd⟩ := calculate_school_size_score_eq s pref e he hpos
  refine ⟨_, hd, rfl, sizeCategory_eq e, rfl, sizeScore_any,
    fun p b h1 h2 h3 => sizeScore_unknown_pref p h1 h2 h3 b⟩

/-- C5 witness: preference `small` with enrollment 1200 scores 50. -/
theorem C5_witness :
    (calculate_school_size_score schoolEnroll1200 "small").map CategoryScore.score =
      some (some 50) := by
  obtain ⟨r, hr, hsc, -⟩ :=
    C5_school_size_table schoolEnroll1200 "small" 1200 rfl (by norm_num)
  rw [hr]
  simp only [Option.map_some']
  rw [hsc]
  rfl

/-! ## Claim C6 (corrected) -/

/-- C6 counterexample: a school whose only exam data is a `vwo` entry
with a *present* pass rate of exactly 0 and 400 candidates.  §4.1's
formula read literally scores it `min(0 + 4, 100) = 4.0`; the code's
truthiness test `if rate:` treats the rate as absent and returns null. -/
theorem C6_counterexample :
    academic_spec_literal schoolVwo0 = some 4 ∧
    (calculate_academic_score schoolVwo0).map CategoryScore.score = some none ∧
    ¬ ((none : Option ℚ) = some 4) := by
  refine ⟨?_, ?_, by simp⟩
  · norm_num [academic_spec_literal, schoolVwo0, schoolSparse, levelNames,
      ExamScores.get_vmbo, ExamScores.get_havo, ExamScores.get_vwo,
      levelWeight, mean, pyRound1, roundHalfEven, List.filterMap_cons,
      List.filterMap_nil]
  · norm_num [calculate_academic_score, schoolVwo0, schoolSparse, levelData,
      fiveYearAvgs, candidateCounts, levelNames, ExamScores.get_vmbo,
      ExamScores.get_havo, ExamScores.get_vwo, List.filterMap_cons,
      List.filterMap_nil]

/-- C6 (amended): the academic score follows §4.1's formula with
presence read as Python truthiness (zero-valued rates, 5-year averages
and candidate counts are treated as absent): weighted mean with level
weights {vmbo: 0.7, havo: 1.0, vwo: 1.5} (the code's single-level
special case agrees with the uniform weighted-mean formula), blend
0.7×current + 0.3×historical when any 5-year average exists, bonus
min(total_candidates/500×5, 5), cap 100, round to 1 decimal; the spec's
§8 example (only vwo, rate 80, no 5-year average, 400 candidates)
scores exactly 84.0. -/
theorem C6_academic_formula :
    (∀ s : School, (calculate_academic_score s).map CategoryScore.score =
      some (academic_spec_truthy s)) ∧
    (calculate_academic_score schoolVwo80).map CategoryScore.score =
      some (some 84) := by
  refine ⟨calculate_academic_score_eq_spec, ?_⟩
  norm_num [calculate_academic_score, schoolVwo80, schoolSparse, levelData,
    fiveYearAvgs, candidateCounts, levelNames, ExamScores.get_vmbo,
    ExamScores.get_havo, ExamScores.get_vwo, levelWeight, mean, pyRound1,
    roundHalfEven, List.filterMap_cons, List.filterMap_nil]

/-- C6 witness: the spec-side formula also gives 84.0 on the §8 example
school, matching the code. -/
theorem C6_witness :
    academic_spec_truthy schoolVwo80 = some 84 ∧
    (calculate_academic_score schoolVwo80).map CategoryScore.score =
      some (some 84) := by
  have h := C6_academic_formula
  refine ⟨?_, h.2⟩
  have h1 := h.1 schoolVwo80
  rw [h.2] at h1
  injection h1 with h1
  exact h1.symm

/-! ## Claim C7 (corrected) -/

/-- C7 counterexample: a school with no `basic_info.city` is *excluded*
by `filters={city: "Amsterdam"}` (the `''` default fails the
case-insensitive equality), where the claim says it passes. -/
theorem C7_counterexample :
    schoolSparse.basic_info.city = none ∧
    passes_filters schoolSparse ⟨none, none, none, some "Amsterdam"⟩ = false := by
  exact ⟨rfl, passes_city_missing schoolSparse "Amsterdam" rfl (by simp)⟩

/-- C7 (amended): only `max_commute_minutes` treats a missing school
field permissively (no bike duration ⇒ pass; a truthy bike duration
over the limit ⇒ fail); a school missing `basic_info.city` is excluded
by a non-empty city filter, a school missing `religious_affiliation` is
excluded by a non-empty religious-affiliation filter, and a school with
no `type` list is excluded by a non-empty school-type filter. -/
theorem C7_filter_defaults :
    (∀ (s : School) (t : ℚ), s.bike_duration_minutes = none →
      passes_filters s ⟨none, none, some t, none⟩ = true) ∧
    (∀ (s : School) (t m : ℚ), s.bike_duration_minutes = some m → ¬ m = 0 →
      m > t → passes_filters s ⟨none, none, some t, none⟩ = false) ∧
    (∀ (s : School) (c : String), s.basic_info.city = none → ¬ c = "" →
      passes_filters s ⟨none, none, none, some c⟩ = false) ∧
    (∀ (s : School) (fa : String), s.basic_info.religious_affiliation = none →
      ¬ fa = "" → passes_filters s ⟨none, some fa, none, none⟩ = false) ∧
    (∀ (s : School) (fts : List String), s.basic_info.type = [] → ¬ fts = [] →
      passes_filters s ⟨some fts, none, none, none⟩ = false) := by
  exact ⟨passes_max_commute_missing, passes_max_commute_over,
    passes_city_missing, passes_religion_missing, passes_school_type_missing⟩

/-- C7 witness: the amended filter behaviours at the sparse school. -/
theorem C7_witness :
    passes_filters schoolSparse ⟨none, none, some 20, none⟩ = true ∧
    passes_filters schoolSparse ⟨none, some "Catholic", none, none⟩ = false ∧
    passes_filters schoolSparse ⟨some ["vwo"], none, none, none⟩ = false := by
  exact ⟨C7_filter_defaults.1 schoolSparse 20 rfl,
    C7_filter_defaults.2.2.2.1 schoolSparse "Catholic" rfl (by simp),
    C7_filter_defaults.2.2.2.2 schoolSparse ["vwo"] rfl (by simp)⟩

/-! ## Claim C10 (confirmed) -/

/-- C10: a non-empty reviews sequence whose first review has
`overall_rating` exactly 0 yields score null with details "No rating
available" (presence is tested by truthiness), for both the parent and
the student satisfaction scorers. -/
theorem C10_zero_rating_null (s : School) (rev : Review) (rest : List Review) :
    ((s.parent_reviews = rev :: rest ∧ rev.overall_rating = some 0) →
      calculate_parent_satisfaction_score s =
        some ⟨none, "No rating available"⟩) ∧
    ((s.student_reviews = rev :: rest ∧ rev.overall_rating = some 0) →
      calculate_student_satisfaction_score s =
        some ⟨none, "No rating available"⟩) := by
  constructor
  · exact fun ⟨h1, h2⟩ => parent_satisfaction_zero_rating s rev rest h1 h2
  · exact fun ⟨h1, h2⟩ => student_satisfaction_zero_rating s rev rest h1 h2

/-- C10 witness: a concrete school whose first parent and student
reviews carry a zero rating. -/
theorem C10_witness :
    calculate_parent_satisfaction_score schoolZeroRating =
      some ⟨none, "No rating available"⟩ ∧
    calculate_student_satisfaction_score schoolZeroRating =
      some ⟨none, "No rating available"⟩ := by
  exact ⟨(C10_zero_rating_null schoolZeroRating
      ⟨some 0, some 9, none⟩ []).1 ⟨rfl, rfl⟩,
    (C10_zero_rating_null schoolZeroRating
      ⟨some 0, none, some 9⟩ []).2 ⟨rfl, rfl⟩⟩

/-! ## Claim C8 (confirmed) -/

theorem rank_results_inv (schools : List School) (w : List (String × ℚ))
    (p : Option String) (f : Option Filters) (u : List (School × CompositeResult))
    (h : rank_results schools w p f = some u) :
    ∃ scored, mapOption
        (fun s => (calculate_composite_score s w p).map fun sd => (s, sd))
        (schools.filter fun s => passes_filters_opt s f) = some scored ∧
      u = scored.filter fun x => x.2.composite_score.isSome := by
  unfold rank_results at h
  cases hm : mapOption
      (fun s => (calculate_composite_score s w p).map fun sd => (s, sd))
      (schools.filter fun s => passes_filters_opt s f) with
  | none => rw [hm] at h; simp at h
  | some scored =>
    rw [hm] at h
    simp only [Option.map_some'] at h
    injection h with h
    exact ⟨scored, rfl, h.symm⟩

/-- C8: `rank_schools` returns the filtered schools with non-null
composite scores, sorted by composite score descending by a stable sort:
the output is a permutation of the unsorted results, is pairwise
descending in the sort key, and filtering either list to any fixed
composite score value yields the same subsequence — equal-scored entries
keep their input order. -/
theorem C8_rank_stable_sort (schools : List School) (w : List (String × ℚ))
    (p : Option String) (f : Option Filters) (u : List (School × CompositeResult))
    (h : rank_results schools w p f = some u) :
    rank_schools schools w p f = some (sortDesc rankKey u) ∧
    (sortDesc rankKey u).Pairwise (fun a b => rankKey b ≤ rankKey a) ∧
    (sortDesc rankKey u).Perm u ∧
    (∀ q : ℚ, (sortDesc rankKey u).filter (fun x => rankKey x == q) =
      u.filter fun x => rankKey x == q) ∧
    (∀ x ∈ u, x.2.composite_score.isSome = true) := by
  refine ⟨?_, sortDesc_sorted rankKey u, sortDesc_perm rankKey u,
    fun q => sortDesc_filter rankKey q u, ?_⟩
  · unfold rank_schools
    rw [h]
    rfl
  · intro x hx
    obtain ⟨scored, hm, hu⟩ := rank_results_inv schools w p f u h
    rw [hu] at hx
    exact (List.mem_filter.mp hx).2

/-- C8 witness: the ranking of two sparse schools under a
facilities-only weighting (both composite 50.0) is sorted and stable. -/
theorem C8_witness :
    ∃ r, rank_schools [schoolSparse, schoolProx30] [("facilities", 10)] none none =
        some r ∧
      r.Pairwise (fun a b => rankKey b ≤ rankKey a) ∧
      (∀ q : ℚ, r.filter (fun x => rankKey x == q) =
        ((rank_results [schoolSparse, schoolProx30] [("facilities", 10)] none
          none).get (rank_results_isSome _ _ _ _)).filter fun x => rankKey x == q) := by
  have h := C8_rank_stable_sort [schoolSparse, schoolProx30] [("facilities", 10)]
    none none
    ((rank_results [schoolSparse, schoolProx30] [("facilities", 10)] none none).get
      (rank_results_isSome _ _ _ _))
    (Option.some_get (rank_results_isSome _ _ _ _)).symm
  exact ⟨_, h.1, h.2.1, h.2.2.2.1⟩

/-! ## Null-score details lemmas -/

theorem academic_null_details (s : School) (r : CategoryScore)
    (h : calculate_academic_score s = some r) (hn : r.score = none) :
    ¬ r.details = "" := by
  unfold calculate_academic_score at h
  cases hes : s.exam_scores with
  | none =>
    rw [hes] at h
    injection h with h
    rw [← h]
    simp
  | some es =>
    rw [hes] at h
    dsimp only at h
    by_cases hld : levelData es = []
    · rw [if_pos hld] at h
      injection h with h
      rw [← h]
      simp
    · rw [if_neg hld] at h
      obtain ⟨x, hx, hr⟩ := Option.map_eq_some'.mp h
      rw [← hr] at hn
      simp at hn

theorem proximity_null_details (s : School) (r : CategoryScore)
    (h : calculate_proximity_score s = some r) (hn : r.score = none) :
    ¬ r.details = "" := by
  unfold calculate_proximity_score at h
  dsimp only at h
  split_ifs at h with hg hb
  · injection h with h
    rw [← h]
    simp
  · obtain ⟨m, hm, hr⟩ := Option.map_eq_some'.mp h
    rw [← hr] at hn
    simp at hn
  · obtain ⟨m, hm, hr⟩ := Option.map_eq_some'.mp h
    rw [← hr] at hn
    simp at hn

theorem parent_null_details (s : School) (r : CategoryScore)
    (h : calculate_parent_satisfaction_score s = some r) (hn : r.score = none) :
    ¬ r.details = "" := by
  unfold calculate_parent_satisfaction_score at h
  cases hpr : s.parent_reviews with
  | nil =>
    rw [hpr] at h
    injection h with h
    rw [← h]
    simp
  | cons latest rest =>
    rw [hpr] at h
    dsimp only at h
    cases hor : latest.overall_rating with
    | none =>
      rw [hor] at h
      injection h with h
      rw [← h]
      simp
    | some rating =>
      rw [hor] at h
      dsimp only at h
      split_ifs at h with h0
      · injection h with h
        rw [← h]
        simp
      · injection h with h
        rw [← h] at hn
        simp at hn

theorem student_null_details (s : School) (r : CategoryScore)
    (h : calculate_student_satisfaction_score s = some r) (hn : r.score = none) :
    ¬ r.details = "" := by
  unfold calculate_student_satisfaction_score at h
  cases hpr : s.student_reviews with
  | nil =>
    rw [hpr] at h
    injection h with h
    rw [← h]
    simp
  | cons latest rest =>
    rw [hpr] at h
    dsimp only at h
    cases hor : latest.overall_rating with
    | none =>
      rw [hor] at h
      injection h with h
      rw [← h]
      simp
    | some rating =>
      rw [hor] at h
      dsimp only at h
      split_ifs at h with h0
      · injection h with h
        rw [← h]
        simp
      · injection h with h
        rw [← h] at hn
        simp at hn

theorem facilities_null_details (s : School) (r : CategoryScore)
    (h : calculate_facilities_score s = some r) (hn : r.score = none) :
    ¬ r.details = "" := by
  obtain ⟨v, d, hvd, -, -⟩ := calculate_facilities_score_bounds s
  rw [hvd] at h
  injection h with h
  rw [← h] at hn
  simp at hn

theorem school_size_null_details (s : School) (pref : String) (r : CategoryScore)
    (h : calculate_school_size_score s pref = some r) (hn : r.score = none) :
    ¬ r.details = "" := by
  unfold calculate_school_size_score at h
  cases hen : s.basic_info.enrollment_total with
  | none =>
    rw [hen] at h
    injection h with h
    rw [← h]
    simp
  | some e =>
    rw [hen] at h
    dsimp only at h
    split_ifs at h with h0
    · injection h with h
      rw [← h]
      simp
    · injection h with h
      rw [← h] at hn
      simp at hn

theorem extracurriculars_null_details (s : School) (r : CategoryScore)
    (h : calculate_extracurriculars_score s = some r) (hn : r.score = none) :
    ¬ r.details = "" := by
  obtain ⟨v, d, hvd, -, -⟩ := calculate_extracurriculars_score_bounds s
  rw [hvd] at h
  injection h with h
  rw [← h] at hn
  simp at hn

theorem special_programs_null_details (s : School) (r : CategoryScore)
    (h : calculate_special_programs_score s = some r) (hn : r.score = none) :
    ¬ r.details = "" := by
  obtain ⟨v, d, hvd, -, -⟩ := calculate_special_programs_score_bounds s
  rw [hvd] at h
  injection h with h
  rw [← h] at hn
  simp at hn

/-- Adding a weights entry for a category whose score is null changes
neither the composite score nor the reported total weight. -/
theorem composite_skip_null (s : School) (w : List (String × ℚ)) (p : Option String)
    (res : CompositeResult) (sd : CategoryScore) (c : String) (wt : ℚ)
    (hres : calculate_composite_score s w p = some res)
    (hlookup : res.category_scores.lookup c = some sd) (hnull : sd.score = none) :
    (calculate_composite_score s ((c, wt) :: w) p).map
      (fun r => (r.composite_score, r.total_weight)) =
      some (res.composite_score, res.total_weight) := by
  obtain ⟨scores, hsc⟩ :=
    Option.isSome_iff_exists.mp (category_scores_map_isSome s (p.getD "medium"))
  have h1 := calculate_composite_score_eq s w p scores hsc
  have h2 := calculate_composite_score_eq s ((c, wt) :: w) p scores hsc
  rw [h1] at hres
  injection hres with hres
  have hcat : res.category_scores = scores := by rw [← hres]
  rw [hcat] at hlookup
  have hnc : contributes scores (c, wt) = false := by
    simp [contributes, hlookup, hnull]
  have hws : weightedSum scores ((c, wt) :: w) = weightedSum scores w := by
    simp [weightedSum, List.filter_cons, hnc]
  have htw : totalWeight scores ((c, wt) :: w) = totalWeight scores w := by
    simp [totalWeight, List.filter_cons, hnc]
  have hco : compositeOf scores ((c, wt) :: w) = compositeOf scores w := by
    unfold compositeOf
    rw [hws, htw]
  rw [h2]
  simp only [Option.map_some']
  rw [← hres, hco, htw]

/-! ## Claim C9 (confirmed) -/

/-- C9: every category scorer returns a value (never a modelled
exception) on every record; whenever the returned score is null the
details string is non-empty; and a null-scored category is never turned
into a 0-score contribution — adding any weight for it leaves both the
composite score and the total weight unchanged. -/
theorem C9_no_exceptions_null_safe :
    (∀ s : School, (calculate_academic_score s).isSome = true ∧
      (calculate_proximity_score s).isSome = true ∧
      (calculate_parent_satisfaction_score s).isSome = true ∧
      (calculate_student_satisfaction_score s).isSome = true ∧
      (calculate_facilities_score s).isSome = true ∧
      (∀ pref, (calculate_school_size_score s pref).isSome = true) ∧
      (calculate_extracurriculars_score s).isSome = true ∧
      (calculate_special_programs_score s).isSome = true) ∧
    (∀ (s : School) (pref : String) (r : CategoryScore),
      (calculate_academic_score s = some r ∨
       calculate_proximity_score s = some r ∨
       calculate_parent_satisfaction_score s = some r ∨
       calculate_student_satisfaction_score s = some r ∨
       calculate_facilities_score s = some r ∨
       calculate_school_size_score s pref = some r ∨
       calculate_extracurriculars_score s = some r ∨
       calculate_special_programs_score s = some r) →
      r.score = none → ¬ r.details = "") ∧
    (∀ (s : School) (w : List (String × ℚ)) (p : Option String)
      (res : CompositeResult) (sd : CategoryScore) (c : String) (wt : ℚ),
      calculate_composite_score s w p = some res →
      res.category_scores.lookup c = some sd → sd.score = none →
      (calculate_composite_score s ((c, wt) :: w) p).map
        (fun r => (r.composite_score, r.total_weight)) =
        some (res.composite_score, res.total_weight)) := by
  refine ⟨?_, ?_, composite_skip_null⟩
  · intro s
    exact ⟨calculate_academic_score_isSome s, calculate_proximity_score_isSome s,
      calculate_parent_satisfaction_score_isSome s,
      calculate_student_satisfaction_score_isSome s,
      calculate_facilities_score_isSome s,
      fun pref => calculate_school_size_score_isSome s pref,
      calculate_extracurriculars_score_isSome s,
      calculate_special_programs_score_isSome s⟩
  · intro s pref r hsome hn
    rcases hsome with h | h | h | h | h | h | h | h
    · exact academic_null_details s r h hn
    · exact proximity_null_details s r h hn
    · exact parent_null_details s r h hn
    · exact student_null_details s r h hn
    · exact facilities_null_details s r h hn
    · exact school_size_null_details s pref r h hn
    · exact extracurriculars_null_details s r h hn
    · exact special_programs_null_details s r h hn

/-- C9 witness: the sparse record is scored without exception, and its
null academic score carries a non-empty explanation. -/
theorem C9_witness :
    (calculate_academic_score schoolSparse).isSome = true ∧
    ¬ ("No exam data available" = "") := by
  have h := C9_no_exceptions_null_safe
  refine ⟨(h.1 schoolSparse).1, ?_⟩
  exact h.2.1 schoolSparse "medium" ⟨none, "No exam data available"⟩ (Or.inl rfl) rfl

/-! ## Claim C2 (corrected) -/

/-- C2 counterexample: weights covering only proximity and a school
whose only data is an 80-minute bike commute (proximity score 0).  The
total weight is 20 > 0, yet `composite_score` is null: the final
truthiness test `if composite_score` nulls out an exact-zero average. -/
theorem C2_counterexample :
    (calculate_composite_score schoolProx80 [("proximity", 20)] none).map
      (fun r => (r.composite_score, r.total_weight)) = some (none, 20) ∧
    ¬ ((20 : ℚ) = 0) := by
  have b1 : ("proximity" == "academic_performance") = false := rfl
  have b2 : ("proximity" == "proximity") = true := rfl
  constructor
  · norm_num [calculate_composite_score, category_scores_map, calculate_academic_score,
      calculate_proximity_score, calculate_parent_satisfaction_score,
      calculate_student_satisfaction_score, calculate_facilities_score,
      calculate_school_size_score, calculate_extracurriculars_score,
      calculate_special_programs_score, schoolProx80, schoolSparse, pyTruthy,
      pyRound1, roundHalfEven, compositeStep, List.lookup, b1, b2]
  · norm_num

/-- C2 (amended): `composite_score` is null iff the total weight is not
positive **or** the weighted sum is 0 (an exact-zero average is nulled
by the truthiness test at the rounding step); with positive total weight
and a non-zero weighted sum it is the rounded weighted average. -/
theorem C2_composite_null_iff (s : School) (w : List (String × ℚ))
    (p : Option String) :
    ∃ scores res, category_scores_map s (p.getD "medium") = some scores ∧
      calculate_composite_score s w p = some res ∧
      res.total_weight = totalWeight scores w ∧
      (res.composite_score = none ↔
        (¬ 0 < totalWeight scores w ∨ weightedSum scores w = 0)) ∧
      (0 < totalWeight scores w → ¬ weightedSum scores w = 0 →
        res.composite_score =
          some (pyRound1 (weightedSum scores w / totalWeight scores w))) := by
  obtain ⟨scores, hsc⟩ :=
    Option.isSome_iff_exists.mp (category_scores_map_isSome s (p.getD "medium"))
  refine ⟨scores, _, hsc, calculate_composite_score_eq s w p scores hsc, rfl, ?_, ?_⟩
  · show compositeOf scores w = none ↔ _
    unfold compositeOf
    split_ifs with h1 h2
    · have hws0 : weightedSum scores w = 0 := by
        rcases div_eq_zero_iff.mp h2 with h | h
        · exact h
        · exact absurd h (ne_of_gt h1)
      simp [hws0]
    · have hws : ¬ weightedSum scores w = 0 := fun h0 => h2 (by rw [h0, zero_div])
      simp [h1, hws]
    · simp [h1]
  · intro h1 hws
    show compositeOf scores w = _
    unfold compositeOf
    rw [if_pos h1, if_neg ?_]
    intro h0
    rcases div_eq_zero_iff.mp h0 with h | h
    · exact hws h
    · exact absurd h (ne_of_gt h1)

/-! ## Claim C1 (corrected) -/

theorem filter_contributes_idem (scores : List (String × CategoryScore))
    (w : List (String × ℚ)) :
    (w.filter (contributes scores)).filter (contributes scores) =
      w.filter (contributes scores) := by
  rw [List.filter_filter]
  simp

theorem opt_ite_getD_nonneg {c1 c2 c3 c4 : Prop} [Decidable c1] [Decidable c2]
    [Decidable c3] [Decidable c4] (a b d e : ℚ) (ha : 0 ≤ a) (hb : 0 ≤ b)
    (hd : 0 ≤ d) (he : 0 ≤ e) :
    0 ≤ (if c1 then some a else if c2 then some b else if c3 then some d
         else if c4 then some e else none).getD 80 := by
  split_ifs <;> simp [ha, hb, hd, he]

theorem sizeScore_nonneg (p c : String) : 0 ≤ sizeScore p c := by
  unfold sizeScore sizeRow sizeRowSmall sizeRowMedium sizeRowLarge sizeRowAny
  split_ifs <;>
    exact opt_ite_getD_nonneg _ _ _ _ (by norm_num) (by norm_num) (by norm_num)
      (by norm_num)

/-- C1 counterexample: with weights covering only proximity and a
school whose only data is a 90-minute bike commute, the weighted
average over the contributing categories is 0 but `composite_score` is
null rather than that (rounded) average. -/
theorem C1_counterexample :
    (calculate_composite_score schoolProx90 [("proximity", 50)] none).map
      (fun r => (r.composite_score,
        weightedSum r.category_scores [("proximity", 50)],
        totalWeight r.category_scores [("proximity", 50)])) =
      some (none, 0, 50) ∧
    ¬ ((none : Option ℚ) = some (pyRound1 (0 / 50))) := by
  have b1 : ("proximity" == "academic_performance") = false := rfl
  have b2 : ("proximity" == "proximity") = true := rfl
  constructor
  · norm_num [calculate_composite_score, category_scores_map, calculate_academic_score,
      calculate_proximity_score, calculate_parent_satisfaction_score,
      calculate_student_satisfaction_score, calculate_facilities_score,
      calculate_school_size_score, calculate_extracurriculars_score,
      calculate_special_programs_score, schoolProx90, schoolSparse, pyTruthy,
      pyRound1, roundHalfEven, compositeStep, List.lookup, weightedSum, totalWeight,
      contributes, contribution, List.filter_cons, b1, b2]
  · simp

/-- C1 (amended): the composite is computed over exactly the categories
present in the weights mapping with a non-null score — null categories
count toward neither the weighted sum nor the renormalization
denominator, and restricting the weights to the contributing categories
changes nothing — and whenever the renormalized weighted average exists
and is non-zero the composite equals it, rounded to 1 decimal (an
exact-zero average is reported as null, the truthiness corner).  With
default weights, a school lacking parent-satisfaction data whose other
seven categories score `a, px, st, f, sz, ex, sp ≥ 0` gets composite
`round1((30a + 20px + 10st + 10f + 5sz + 5ex + 5sp) / 85)` — the
weighted average renormalized over 85, not divided by 100. -/
theorem C1_composite_renormalization :
    (∀ (s : School) (w : List (String × ℚ)) (p : Option String),
      ∃ scores res, category_scores_map s (p.getD "medium") = some scores ∧
        calculate_composite_score s w p = some res ∧
        res.category_scores = scores ∧
        res.total_weight = totalWeight scores w ∧
        (0 < totalWeight scores w → ¬ weightedSum scores w / totalWeight scores w = 0 →
          res.composite_score =
            some (pyRound1 (weightedSum scores w / totalWeight scores w))) ∧
        (calculate_composite_score s (w.filter (contributes scores)) p).map
            (fun r => (r.composite_score, r.total_weight)) =
          some (res.composite_score, res.total_weight)) ∧
    (∀ (s : School) (a px st f sz ex sp : ℚ),
      (calculate_parent_satisfaction_score s).map CategoryScore.score = some none →
      (calculate_academic_score s).map CategoryScore.score = some (some a) → 0 ≤ a →
      (calculate_proximity_score s).map CategoryScore.score = some (some px) →
      (calculate_student_satisfaction_score s).map CategoryScore.score =
        some (some st) → 0 ≤ st →
      (calculate_facilities_score s).map CategoryScore.score = some (some f) →
      (calculate_school_size_score s "medium").map CategoryScore.score =
        some (some sz) →
      (calculate_extracurriculars_score s).map CategoryScore.score = some (some ex) →
      (calculate_special_programs_score s).map CategoryScore.score = some (some sp) →
      (calculate_composite_score s DEFAULT_WEIGHTS none).map
          (fun r => r.composite_score) =
        some (some (pyRound1
          ((a * 30 + (px * 20 + (st * 10 + (f * 10 + (sz * 5 + (ex * 5 + sp * 5))))))
            / 85)))) := by
  constructor
  · intro s w p
    obtain ⟨scores, hsc⟩ :=
      Option.isSome_iff_exists.mp (category_scores_map_isSome s (p.getD "medium"))
    have h1 := calculate_composite_score_eq s w p scores hsc
    have h2 := calculate_composite_score_eq s (w.filter (contributes scores)) p scores hsc
    have hws : weightedSum scores (w.filter (contributes scores)) =
        weightedSum scores w := by
      unfold weightedSum
      rw [filter_contributes_idem]
    have htw : totalWeight scores (w.filter (contributes scores)) =
        totalWeight scores w := by
      unfold totalWeight
      rw [filter_contributes_idem]
    refine ⟨scores, _, hsc, h1, rfl, rfl, ?_, ?_⟩
    · intro hpos hnz
      show compositeOf scores w = _
      unfold compositeOf
      rw [if_pos hpos, if_neg hnz]
    · rw [h2]
      simp only [Option.map_some']
      have hco : compositeOf scores (w.filter (contributes scores)) =
          compositeOf scores w := by
        unfold compositeOf
        rw [hws, htw]
      rw [hco, htw]
  · intro s a px st f sz ex sp hpar hacad ha hprox hstud hst hfac hsz hex hsp
    obtain ⟨scores, hsc⟩ :=
      Option.isSome_iff_exists.mp (category_scores_map_isSome s "medium")
    obtain ⟨A, PX, PA, ST, F, SZ, EX, SP, hA, hPX, hPA, hST, hF, hSZ, hEX, hSP,
      hscores⟩ := category_scores_map_shape s "medium" scores hsc
    rw [hA] at hacad
    rw [hPX] at hprox
    rw [hPA] at hpar
    rw [hST] at hstud
    rw [hF] at hfac
    rw [hSZ] at hsz
    rw [hEX] at hex
    rw [hSP] at hsp
    simp only [Option.map_some'] at hacad hprox hpar hstud hfac hsz hex hsp
    have hAs : A.score = some a := by injection hacad
    have hPXs : PX.score = some px := by injection hprox
    have hPAs : PA.score = none := by injection hpar
    have hSTs : ST.score = some st := by injection hstud
    have hFs : F.score = some f := by injection hfac
    have hSZs : SZ.score = some sz := by injection hsz
    have hEXs : EX.score = some ex := by injection hex
    have hSPs : SP.score = some sp := by injection hsp
    -- lookups on the concrete scores list
    have l1 : scores.lookup "academic_performance" = some A := by rw [hscores]; rfl
    have l2 : scores.lookup "proximity" = some PX := by rw [hscores]; rfl
    have l3 : scores.lookup "parent_satisfaction" = some PA := by rw [hscores]; rfl
    have l4 : scores.lookup "student_satisfaction" = some ST := by rw [hscores]; rfl
    have l5 : scores.lookup "facilities" = some F := by rw [hscores]; rfl
    have l6 : scores.lookup "school_size" = some SZ := by rw [hscores]; rfl
    have l7 : scores.lookup "extracurriculars" = some EX := by rw [hscores]; rfl
    have l8 : scores.lookup "special_programs" = some SP := by rw [hscores]; rfl
    have hwsum : weightedSum scores DEFAULT_WEIGHTS =
        a * 30 + (px * 20 + (st * 10 + (f * 10 + (sz * 5 + (ex * 5 + sp * 5))))) := by
      unfold weightedSum DEFAULT_WEIGHTS
      simp [List.filter_cons, contributes, contribution, l1, l2, l3, l4, l5, l6, l7,
        l8, hAs, hPXs, hPAs, hSTs, hFs, hSZs, hEXs, hSPs]
    have htwsum : totalWeight scores DEFAULT_WEIGHTS = 85 := by
      unfold totalWeight DEFAULT_WEIGHTS
      simp [List.filter_cons, contributes, l1, l2, l3, l4, l5, l6, l7, l8, hAs,
        hPXs, hPAs, hSTs, hFs, hSZs, hEXs, hSPs]
      norm_num
    -- value bounds for the always-scored categories
    obtain ⟨vf, df, hvf, hvf50, -⟩ := calculate_facilities_score_bounds s
    rw [hF] at hvf
    have hfv : f = vf := by
      injection hvf with hvf
      rw [hvf] at hFs
      exact (Option.some_inj.mp hFs).symm
    obtain ⟨ve, de, hve, hve50, -⟩ := calculate_extracurriculars_score_bounds s
    rw [hEX] at hve
    have hev : ex = ve := by
      injection hve with hve
      rw [hve] at hEXs
      exact (Option.some_inj.mp hEXs).symm
    obtain ⟨vs, ds, hvs, hvs50, -⟩ := calculate_special_programs_score_bounds s
    rw [hSP] at hvs
    have hsv : sp = vs := by
      injection hvs with hvs
      rw [hvs] at hSPs
      exact (Option.some_inj.mp hSPs).symm
    have hpx0 : 0 ≤ px := proximity_score_nonneg s PX px hPX hPXs
    have hsz0 : 0 ≤ sz := by
      unfold calculate_school_size_score at hSZ
      cases hen : s.basic_info.enrollment_total with
      | none =>
        rw [hen] at hSZ
        injection hSZ with hSZ
        rw [← hSZ] at hSZs
        simp at hSZs
      | some e =>
        rw [hen] at hSZ
        dsimp only at hSZ
        split_ifs at hSZ with h0
        · injection hSZ with hSZ
          rw [← hSZ] at hSZs
          simp at hSZs
        · injection hSZ with hSZ
          rw [← hSZ] at hSZs
          injection hSZs with hSZs
          rw [← hSZs]
          exact sizeScore_nonneg _ _
    have hsum_pos : 0 <
        a * 30 + (px * 20 + (st * 10 + (f * 10 + (sz * 5 + (ex * 5 + sp * 5))))) := by
      have hf50 : 50 ≤ f := hfv ▸ hvf50
      have he50 : 50 ≤ ex := hev ▸ hve50
      have hs50 : 50 ≤ sp := hsv ▸ hvs50
      nlinarith
    have h1 := calculate_composite_score_eq s DEFAULT_WEIGHTS none scores hsc
    rw [h1]
    simp only [Option.map_some']
    show some (compositeOf scores DEFAULT_WEIGHTS) = _
    unfold compositeOf
    rw [htwsum, hwsum]
    rw [if_pos (by norm_num : (0:ℚ) < 85), if_neg ?_]
    intro hc
    rcases div_eq_zero_iff.mp hc with h | h
    · rw [h] at hsum_pos
      exact lt_irrefl 0 hsum_pos
    · norm_num at h

/-- C1 witness: a school with every category scored except parent
satisfaction, under default weights — the composite is the weighted
average of the seven remaining categories renormalized over 85. -/
theorem C1_witness :
    (calculate_composite_score schoolNoParent DEFAULT_WEIGHTS none).map
        (fun r => r.composite_score) =
      some (some (pyRound1 (7257 / 85))) := by
  have h := C1_composite_renormalization.2 schoolNoParent (452/5) 86 80 90 100 65 60
    (by norm_num [calculate_parent_satisfaction_score, schoolNoParent])
    (by norm_num [calculate_academic_score, schoolNoParent, levelData, fiveYearAvgs,
      candidateCounts, levelNames, ExamScores.get_vmbo, ExamScores.get_havo,
      ExamScores.get_vwo, levelWeight, mean, pyRound1, roundHalfEven,
      List.filterMap_cons, List.filterMap_nil])
    (by norm_num)
    (by norm_num [calculate_proximity_score, schoolNoParent, pyTruthy, pyRound1,
      roundHalfEven])
    (by norm_num [calculate_student_satisfaction_score, schoolNoParent, pyRound1,
      roundHalfEven])
    (by norm_num)
    (by
      have e1 : (("laptops" : String) = "") = False := by decide
      have e2 : ((¬ ("labs" : String) = "" ∧ 50 < ("labs" : String).length)) = False := by
        decide
      norm_num [calculate_facilities_score, schoolNoParent, pyRound1, roundHalfEven,
        e1, e2])
    rfl
    (by norm_num [calculate_extracurriculars_score, schoolNoParent])
    (by norm_num [calculate_special_programs_score, schoolNoParent])
  rw [h]
  norm_num

end Middelbare
